import Mathlib

/-!
Shallow embedding of the sql-helper ANSI SQL parser (Rust, nom-based) and
proofs about its specification claims.

Inputs are modelled as `List Char` (one entry per input byte; the sources
only ever match ASCII). A parser is a function from input to
`Option (remaining input × value)`; `none` is nom's recoverable error
(the code never uses `nom::Err::Failure`).
-/

namespace SqlHelper

/-- Result of a nom parser: `none` on error, otherwise remainder and value. -/
abbrev P (α : Type) : Type := List Char → Option (List Char × α)

/-- nom `map`: apply a function to the parsed value. -/
def pmap {α β : Type} (f : α → β) (p : P α) : P β := fun i =>
  match p i with
  | none => none
  | some (r, a) => some (r, f a)

/-- nom `alt` for two parsers: try the first, on error try the second. -/
def palt {α : Type} (p q : P α) : P α := fun i =>
  match p i with
  | none => q i
  | some ra => some ra

/-- nom `opt`: always succeeds, wrapping the value in `Option` and
consuming nothing on inner failure. -/
def popt {α : Type} (p : P α) : P (Option α) := fun i =>
  match p i with
  | none => some (i, none)
  | some (r, a) => some (r, some a)

/-- nom `peek`: run the parser without consuming input. -/
def ppeek {α : Type} (p : P α) : P α := fun i =>
  match p i with
  | none => none
  | some (_, a) => some (i, a)

/-- nom `preceded`: run both parsers, keep the second value. -/
def preceded {α β : Type} (p : P α) (q : P β) : P β := fun i =>
  match p i with
  | none => none
  | some (r, _) => q r

/-- nom `terminated`: run both parsers, keep the first value. -/
def terminated {α β : Type} (p : P α) (q : P β) : P α := fun i =>
  match p i with
  | none => none
  | some (r, a) =>
    match q r with
    | none => none
    | some (r2, _) => some (r2, a)

/-- nom `delimited`: run three parsers, keep the middle value. -/
def delimitedP {α β γ : Type} (p : P α) (q : P β) (r : P γ) : P β :=
  preceded p (terminated q r)

/-- nom `pair` / 2-`tuple`: run both parsers, keep both values. -/
def ppair {α β : Type} (p : P α) (q : P β) : P (α × β) := fun i =>
  match p i with
  | none => none
  | some (r, a) =>
    match q r with
    | none => none
    | some (r2, b) => some (r2, (a, b))

/-- nom `separated_pair`: values of the outer parsers, separator dropped. -/
def separated_pair {α β γ : Type} (p : P α) (sep : P β) (q : P γ) :
    P (α × γ) :=
  ppair (terminated p sep) q

/-- ASCII lower-casing of one character, as done by
`eq_ignore_ascii_case` in Rust. -/
def asciiLower (c : Char) : Char :=
  if 65 ≤ c.toNat ∧ c.toNat ≤ 90 then Char.ofNat (c.toNat + 32) else c

/-- Case-insensitive ASCII character comparison. -/
def charEqNoCase (c d : Char) : Bool := asciiLower c = asciiLower d

/-- nom `tag`: match an exact literal, returning the matched slice. -/
def tag (t : List Char) : P (List Char) := fun i =>
  if t.isPrefixOf i then some (i.drop t.length, t) else none

/-- nom `tag_no_case`: match a literal up to ASCII case, returning the
consumed input slice. -/
def tag_no_case : List Char → P (List Char)
  | [], i => some (i, [])
  | _ :: _, [] => none
  | c :: t, d :: i =>
    if charEqNoCase c d then
      match tag_no_case t i with
      | none => none
      | some (r, m) => some (r, d :: m)
    else none

/-- nom `eof`: succeed exactly on empty input. -/
def eofP : P Unit := fun i =>
  match i with
  | [] => some ([], ())
  | _ :: _ => none

/-- nom `line_ending`: a line feed or a carriage-return line feed. -/
def line_ending : P (List Char) :=
  palt (tag [Char.ofNat 10]) (tag [Char.ofNat 13, Char.ofNat 10])

/-- nom `take_while1`: longest nonempty run satisfying the predicate. -/
def take_while1 (f : Char → Bool) : P (List Char) := fun i =>
  match i.takeWhile f with
  | [] => none
  | c :: cs => some (i.drop (c :: cs).length, c :: cs)

/-- nom `alpha1` (ASCII letters, at least one). -/
def alpha1 : P (List Char) := take_while1 (fun c => c.isAlpha)

/-- Embedded `common::tokens::is_whitespace`: the ANSI whitespace list used by the
repository (tab, LF, VT, FF, CR, space, NEL, NBSP). -/
def is_whitespace (c : Char) : Bool :=
  decide (c.toNat ∈ [0x09, 0x0A, 0x0B, 0x0C, 0x0D, 0x20, 0x85, 0xA0])

/-- nom multispace character class (space, tab, CR, LF). -/
def isMultispace (c : Char) : Bool :=
  decide (c.toNat ∈ [0x20, 0x09, 0x0D, 0x0A])

/-- Embedded `common::parsers::whitespace0`: strip zero or more whitespace chars. -/
def whitespace0 : P (List Char) := fun i =>
  some (i.dropWhile is_whitespace, i.takeWhile is_whitespace)

/-- Embedded `common::parsers::whitespace1`: strip one or more whitespace chars. -/
def whitespace1 : P (List Char) := fun i =>
  match i.takeWhile is_whitespace with
  | [] => none
  | c :: cs => some (i.drop (c :: cs).length, c :: cs)

/-- nom `multispace0`. -/
def multispace0 : P (List Char) := fun i =>
  some (i.dropWhile isMultispace, i.takeWhile isMultispace)

/-- nom `multispace1`. -/
def multispace1 : P (List Char) := fun i =>
  match i.takeWhile isMultispace with
  | [] => none
  | c :: cs => some (i.drop (c :: cs).length, c :: cs)

/-- Single-character token parsers from `common::tokens`. -/
def period : P (List Char) := tag ['.']

/-- Embedded `common::tokens::comma`. -/
def comma : P (List Char) := tag [',']

/-- Embedded `common::tokens::left_paren`. -/
def left_paren : P (List Char) := tag ['(']

/-- Embedded `common::tokens::right_paren`. -/
def right_paren : P (List Char) := tag [')']

/-- Embedded `common::parsers::delimited_ws0`: optional whitespace on both sides. -/
def delimited_ws0 {α : Type} (p : P α) : P α :=
  delimitedP whitespace0 p whitespace0

/-- Embedded `common::parsers::preceded_ws0`. -/
def preceded_ws0 {α : Type} (p : P α) : P α := preceded whitespace0 p

/-- Embedded `common::parsers::terminated_ws0`. -/
def terminated_ws0 {α : Type} (p : P α) : P α := terminated p whitespace0

/-- Embedded `common::parsers::preceded_ws1`. -/
def preceded_ws1 {α : Type} (p : P α) : P α := preceded whitespace1 p

/-- Embedded `common::parsers::paren_delimited`: the parser between parentheses,
with optional whitespace inside them. -/
def paren_delimited {α : Type} (p : P α) : P α :=
  delimitedP (terminated_ws0 left_paren) p (preceded_ws0 right_paren)

/-- Embedded `common::parsers::statement_terminator`: whitespace, then a semicolon,
a line ending or end of input, then whitespace. -/
def statement_terminator : P Unit :=
  pmap (fun _ => ())
    (delimitedP whitespace0
      (palt (tag [';']) (palt line_ending (pmap (fun _ => ([] : List Char)) eofP)))
      whitespace0)

/-- ASCII digit test (`nom`'s digit character class). -/
def isDigitChar (c : Char) : Bool := decide (48 ≤ c.toNat ∧ c.toNat ≤ 57)

/-- Fold step turning a run of decimal digit characters into a number. -/
def digitStep (a : Nat) (c : Char) : Nat := a * 10 + (c.toNat - 48)

/-- Embedded `nom::character::complete::u32`: a nonempty run of ASCII digits whose
value fits in 32 bits (checked accumulation overflows into an error). -/
def u32 : P Nat := fun i =>
  match i.takeWhile isDigitChar with
  | [] => none
  | c :: cs =>
    if (c :: cs).foldl digitStep 0 < 4294967296 then
      some (i.drop (c :: cs).length, (c :: cs).foldl digitStep 0)
    else none

/-- Decimal digit list of a positive number, most significant first
(fuel-based so it reduces definitionally). -/
def natDigitsAux : Nat → Nat → List Char
  | 0, _ => []
  | fuel + 1, n =>
    if n = 0 then [] else natDigitsAux fuel (n / 10) ++ [Nat.digitChar (n % 10)]

/-- Decimal digit list of a number; empty for zero. -/
def digitsOf (n : Nat) : List Char := natDigitsAux (n + 1) n

/-- Decimal rendering of a number, as Rust's `Display` for `u32` writes
it. -/
def renderNat (n : Nat) : List Char := if n = 0 then ['0'] else digitsOf n

theorem natDigitsAux_fuel (f g n : Nat) (hf : n < f) (hg : n < g) :
    natDigitsAux f n = natDigitsAux g n := by
  induction n using Nat.strong_induction_on generalizing f g with
  | _ n ih =>
    match f, g with
    | f + 1, g + 1 =>
      by_cases h0 : n = 0
      · simp [natDigitsAux, h0]
      · have hd : n / 10 < n := Nat.div_lt_self (Nat.pos_of_ne_zero h0) (by omega)
        simp only [natDigitsAux, h0, if_false]
        rw [ih (n / 10) hd f g (by omega) (by omega)]

theorem digitsOf_succ (n : Nat) (h : n ≠ 0) :
    digitsOf n = digitsOf (n / 10) ++ [Nat.digitChar (n % 10)] := by
  unfold digitsOf
  conv_lhs => rw [natDigitsAux]
  simp only [h, if_false]
  rw [natDigitsAux_fuel n (n / 10 + 1) (n / 10)
    (by
      have : n / 10 < n := Nat.div_lt_self (Nat.pos_of_ne_zero h) (by omega)
      omega)
    (by omega)]

theorem digitChar_isDigit (d : Nat) (h : d < 10) :
    isDigitChar (Nat.digitChar d) = true := by
  interval_cases d <;> decide

theorem digitChar_toNat (d : Nat) (h : d < 10) : (Nat.digitChar d).toNat - 48 = d := by
  interval_cases d <;> decide

theorem digitsOf_all_digits (n : Nat) : ∀ c ∈ digitsOf n, isDigitChar c = true := by
  induction n using Nat.strong_induction_on with
  | _ n ih =>
    by_cases h0 : n = 0
    · simp [h0, digitsOf, natDigitsAux]
    · rw [digitsOf_succ n h0]
      intro c hc
      rcases List.mem_append.mp hc with hmem | hmem
      · exact ih (n / 10) (Nat.div_lt_self (Nat.pos_of_ne_zero h0) (by omega)) c hmem
      · simp at hmem
        subst hmem
        exact digitChar_isDigit _ (Nat.mod_lt _ (by omega))

theorem digitsOf_foldl (n : Nat) :
    ∀ v : Nat, (digitsOf n).foldl digitStep v = v * 10 ^ (digitsOf n).length + n := by
  induction n using Nat.strong_induction_on with
  | _ n ih =>
    intro v
    by_cases h0 : n = 0
    · simp [h0, digitsOf, natDigitsAux]
    · rw [digitsOf_succ n h0]
      rw [List.foldl_append]
      have hd : n / 10 < n := Nat.div_lt_self (Nat.pos_of_ne_zero h0) (by omega)
      rw [ih (n / 10) hd v]
      simp only [List.foldl_cons, List.foldl_nil, List.length_append, List.length_cons,
        List.length_nil, digitStep]
      rw [digitChar_toNat _ (Nat.mod_lt _ (by omega))]
      have : n = 10 * (n / 10) + n % 10 := (Nat.div_add_mod n 10).symm
      ring_nf
      omega

theorem renderNat_foldl (n : Nat) : (renderNat n).foldl digitStep 0 = n := by
  by_cases h0 : n = 0
  · simp [h0, renderNat, digitStep]
  · simp only [renderNat, h0, if_false]
    rw [digitsOf_foldl n 0]
    simp

theorem renderNat_all_digits (n : Nat) : ∀ c ∈ renderNat n, isDigitChar c = true := by
  by_cases h0 : n = 0
  · simp [h0, renderNat]
    decide
  · simp only [renderNat, h0, if_false]
    exact digitsOf_all_digits n

theorem renderNat_ne_nil (n : Nat) : renderNat n ≠ [] := by
  by_cases h0 : n = 0
  · simp [h0, renderNat]
  · simp only [renderNat, h0, if_false]
    intro hc
    have := digitsOf_succ n h0
    rw [hc] at this
    simp at this

/-- Head condition: the list is empty or starts with a character failing
the predicate. -/
def headNot (p : Char → Bool) : List Char → Prop
  | [] => True
  | c :: _ => p c = false

theorem takeWhile_append_frontAll {p : Char → Bool} (A B : List Char)
    (hA : ∀ a ∈ A, p a = true) (hB : headNot p B) :
    (A ++ B).takeWhile p = A := by
  induction A with
  | nil =>
    cases B with
    | nil => rfl
    | cons c cs => simp_all [List.takeWhile, headNot]
  | cons a A ih =>
    have ha : p a = true := hA a (by simp)
    simp only [List.cons_append, List.takeWhile, ha]
    rw [show A.append B = A ++ B from rfl, ih (fun x hx => hA x (by simp [hx]))]

theorem drop_length_append (A B : List Char) : (A ++ B).drop A.length = B := by
  simp

theorem u32_render (n : Nat) (h : n < 4294967296) (rest : List Char)
    (hrest : headNot isDigitChar rest) :
    u32 (renderNat n ++ rest) = some (rest, n) := by
  have htake : (renderNat n ++ rest).takeWhile isDigitChar = renderNat n :=
    takeWhile_append_frontAll _ _ (renderNat_all_digits n) hrest
  have hfold := renderNat_foldl n
  unfold u32
  rw [htake]
  cases hr : renderNat n with
  | nil => exact absurd hr (renderNat_ne_nil n)
  | cons c cs =>
    rw [hr] at hfold
    simp [hfold, h]

/-- Test whether a keyword could still match a case-insensitive prefix of
inputs extending the given partial input. -/
def noCaseCanMatch : List Char → List Char → Bool
  | [], _ => true
  | _ :: _, [] => true
  | c :: t, d :: s => charEqNoCase c d && noCaseCanMatch t s

theorem tag_no_case_self (t : List Char) (rest : List Char) :
    tag_no_case t (t ++ rest) = some (rest, t) := by
  induction t with
  | nil => rfl
  | cons c t ih => simp [tag_no_case, charEqNoCase, ih]

theorem tag_no_case_append_none (t s : List Char)
    (h : noCaseCanMatch t s = false) (rest : List Char) :
    tag_no_case t (s ++ rest) = none := by
  induction t generalizing s with
  | nil => simp [noCaseCanMatch] at h
  | cons c t ih =>
    cases s with
    | nil => simp [noCaseCanMatch] at h
    | cons d s =>
      simp only [noCaseCanMatch, Bool.and_eq_false_iff] at h
      by_cases hc : charEqNoCase c d
      · have ht : noCaseCanMatch t s = false := by
          rcases h with h | h
          · exact absurd hc (by simp [h])
          · exact h
        simp [tag_no_case, hc, ih s ht]
      · simp [tag_no_case, hc]

theorem palt_none {α : Type} {p q : P α} {i : List Char} (h : p i = none) :
    palt p q i = q i := by
  simp [palt, h]

theorem palt_some {α : Type} {p q : P α} {i : List Char} {r : List Char × α}
    (h : p i = some r) : palt p q i = some r := by
  simp [palt, h]

theorem preceded_step {α β : Type} {p : P α} {q : P β} {i r : List Char}
    {a : α} (h : p i = some (r, a)) : preceded p q i = q r := by
  simp [preceded, h]

theorem popt_none {α : Type} {p : P α} {i : List Char} (h : p i = none) :
    popt p i = some (i, none) := by
  simp [popt, h]

theorem popt_some {α : Type} {p : P α} {i r : List Char} {a : α}
    (h : p i = some (r, a)) : popt p i = some (r, some a) := by
  simp [popt, h]

theorem pmap_step {α β : Type} (f : α → β) (p : P α) (i : List Char) :
    pmap f p i = (p i).map (fun ra => (ra.1, f ra.2)) := by
  cases h : p i with
  | none => simp [pmap, h]
  | some ra => simp [pmap, h]

theorem headNot_of_digits_head (n : Nat) (R : List Char) :
    headNot is_whitespace (renderNat n ++ R) ∧ headNot (fun c => c = '(') (renderNat n ++ R) := by
  cases hr : renderNat n with
  | nil => exact absurd hr (renderNat_ne_nil n)
  | cons c cs =>
    have hc : isDigitChar c = true := by
      apply renderNat_all_digits n
      rw [hr]
      simp
    have hb : 48 ≤ c.toNat ∧ c.toNat ≤ 57 := by
      simpa [isDigitChar] using hc
    constructor
    · show is_whitespace c = false
      simp [is_whitespace]
      omega
    · show decide (c = '(') = false
      simp only [decide_eq_false_iff_not]
      intro hcc
      subst hcc
      simp at hb

theorem whitespace0_headNot {i : List Char} (h : headNot is_whitespace i) :
    whitespace0 i = some (i, []) := by
  cases i with
  | nil => rfl
  | cons c cs =>
    have hc : is_whitespace c = false := h
    simp [whitespace0, List.dropWhile, List.takeWhile, hc]

/-- Embedded `ansi::ast::data_types::CharLengthUnits`. -/
inductive CharLengthUnits : Type
  | Characters : CharLengthUnits
  | Octets : CharLengthUnits
deriving DecidableEq

/-- Embedded `ansi::ast::data_types::CharacterLength` (`length` plus optional
units). -/
structure CharacterLength : Type where
  length : Nat
  opt_units : Option CharLengthUnits
deriving DecidableEq

/-- Embedded `ansi::ast::data_types::Multiplier` (K/M/G/T/P). -/
inductive Multiplier : Type
  | K : Multiplier
  | M : Multiplier
  | G : Multiplier
  | T : Multiplier
  | P : Multiplier
deriving DecidableEq

/-- Embedded `ansi::ast::data_types::LargeObjectLength` (integer plus optional
multiplier). -/
structure LargeObjectLength : Type where
  length : Nat
  multiplier : Option Multiplier
deriving DecidableEq

/-- Embedded `ansi::ast::data_types::CharacterLargeObjectLength`. -/
structure CharacterLargeObjectLength : Type where
  length : LargeObjectLength
  opt_units : Option CharLengthUnits
deriving DecidableEq

/-- Embedded `ansi::ast::data_types::ExactNumberInfo`: three mutually exclusive
precision states. -/
inductive ExactNumberInfo : Type
  | None : ExactNumberInfo
  | Precision : Nat → ExactNumberInfo
  | PrecisionAndScale : Nat → Nat → ExactNumberInfo
deriving DecidableEq

/-- Embedded `ansi::ast::data_types::WithOrWithoutTimeZone`. -/
inductive WithOrWithoutTimeZone : Type
  | None : WithOrWithoutTimeZone
  | WithTimeZone : WithOrWithoutTimeZone
  | WithoutTimeZone : WithOrWithoutTimeZone
deriving DecidableEq

/-- Embedded `ansi::ast::data_types::DataType`: the closed sum of supported ANSI
data types. The binary-string variants are produced by
`binary_string_types` in `ansi::parser::data_types`; the snapshot of the
AST file predates them, so they are included here as the parser
constructs them. -/
inductive DataType : Type
  | Character : Option CharacterLength → DataType
  | Char : Option CharacterLength → DataType
  | CharacterVarying : Option CharacterLength → DataType
  | CharVarying : Option CharacterLength → DataType
  | Varchar : Option CharacterLength → DataType
  | CharacterLargeObject : Option CharacterLargeObjectLength → DataType
  | CharLargeObject : Option CharacterLargeObjectLength → DataType
  | Clob : Option CharacterLargeObjectLength → DataType
  | BinaryLargeObject : Option LargeObjectLength → DataType
  | Blob : Option LargeObjectLength → DataType
  | Varbinary : Option Nat → DataType
  | BinaryVarying : Option Nat → DataType
  | Binary : Option Nat → DataType
  | Numeric : ExactNumberInfo → DataType
  | Decimal : ExactNumberInfo → DataType
  | Dec : ExactNumberInfo → DataType
  | Smallint : DataType
  | Integer : DataType
  | Int : DataType
  | Bigint : DataType
  | Float : DataType
  | Real : DataType
  | DoublePrecision : DataType
  | DecFloat : Option Nat → DataType
  | Boolean : DataType
  | Date : DataType
  | Time : Option Nat → WithOrWithoutTimeZone → DataType
  | Timestamp : Option Nat → WithOrWithoutTimeZone → DataType
deriving DecidableEq

/-- Embedded `char_length_units` from `ansi::parser::data_types`. -/
def char_length_units : P CharLengthUnits :=
  palt (pmap (fun _ => CharLengthUnits.Octets) (tag_no_case "OCTETS".toList))
    (pmap (fun _ => CharLengthUnits.Characters) (tag_no_case "CHARACTERS".toList))

/-- Embedded `multiplier` from `ansi::parser::data_types`. -/
def multiplier : P Multiplier :=
  palt (pmap (fun _ => Multiplier.K) (tag_no_case "K".toList))
    (palt (pmap (fun _ => Multiplier.M) (tag_no_case "M".toList))
      (palt (pmap (fun _ => Multiplier.G) (tag_no_case "G".toList))
        (palt (pmap (fun _ => Multiplier.T) (tag_no_case "T".toList))
          (pmap (fun _ => Multiplier.P) (tag_no_case "P".toList)))))

/-- Embedded `large_object_length` from `ansi::parser::data_types`. -/
def large_object_length : P LargeObjectLength :=
  pmap (fun (length, opt_multiplier) => LargeObjectLength.mk length opt_multiplier)
    (ppair u32 (popt multiplier))

/-- Embedded `character_large_object_length` from `ansi::parser::data_types`. -/
def character_large_object_length : P CharacterLargeObjectLength :=
  pmap (fun (length, opt_units) => CharacterLargeObjectLength.mk length opt_units)
    (ppair large_object_length (popt (preceded_ws1 char_length_units)))

/-- Embedded `opt_character_length` from `ansi::parser::data_types`. -/
def opt_character_length : P (Option CharacterLength) :=
  pmap
    (fun o =>
      match o with
      | some (length, opt_units) => some (CharacterLength.mk length opt_units)
      | none => none)
    (popt (paren_delimited (ppair u32 (popt (preceded_ws1 char_length_units)))))

/-- Embedded `exact_number_info` from `ansi::parser::data_types`: parenthesized
precision and scale, parenthesized precision, or the empty fallback. -/
def exact_number_info : P ExactNumberInfo :=
  palt
    (pmap (fun (precision, scale) => ExactNumberInfo.PrecisionAndScale precision scale)
      (paren_delimited (separated_pair u32 (delimited_ws0 comma) u32)))
    (palt (pmap ExactNumberInfo.Precision (paren_delimited u32))
      (pmap (fun _ => ExactNumberInfo.None) (tag [])))

/-- Embedded `with_or_without_timezone` from `ansi::parser::data_types`: the two
keyword phrases behind mandatory whitespace, or the empty fallback. -/
def with_or_without_timezone : P WithOrWithoutTimeZone :=
  palt
    (pmap (fun _ => WithOrWithoutTimeZone.WithoutTimeZone)
      (preceded_ws1 (tag_no_case "WITHOUT TIME ZONE".toList)))
    (palt
      (pmap (fun _ => WithOrWithoutTimeZone.WithTimeZone)
        (preceded_ws1 (tag_no_case "WITH TIME ZONE".toList)))
      (pmap (fun _ => WithOrWithoutTimeZone.None) (tag [])))

/-- Embedded `character_string` from `ansi::parser::data_types`. -/
def character_string : P DataType :=
  palt
    (pmap DataType.CharacterVarying
      (preceded (terminated_ws0 (tag_no_case "CHARACTER VARYING".toList)) opt_character_length))
    (palt
      (pmap DataType.CharVarying
        (preceded (terminated_ws0 (tag_no_case "CHAR VARYING".toList)) opt_character_length))
      (palt
        (pmap DataType.Character
          (preceded (terminated_ws0 (tag_no_case "CHARACTER".toList)) opt_character_length))
        (palt
          (pmap DataType.Varchar
            (preceded (terminated_ws0 (tag_no_case "VARCHAR".toList)) opt_character_length))
          (pmap DataType.Char
            (preceded (terminated_ws0 (tag_no_case "CHAR".toList)) opt_character_length)))))

/-- Embedded `character_large_object_types` from `ansi::parser::data_types`. -/
def character_large_object_types : P DataType :=
  palt
    (pmap DataType.CharacterLargeObject
      (preceded (tag_no_case "CHARACTER LARGE OBJECT".toList)
        (popt (paren_delimited character_large_object_length))))
    (palt
      (pmap DataType.CharLargeObject
        (preceded (tag_no_case "CHAR LARGE OBJECT".toList)
          (popt (paren_delimited character_large_object_length))))
      (pmap DataType.Clob
        (preceded (tag_no_case "CLOB".toList)
          (popt (paren_delimited character_large_object_length)))))

/-- Embedded `binary_string_types` from `ansi::parser::data_types`. -/
def binary_string_types : P DataType :=
  palt
    (pmap DataType.BinaryLargeObject
      (preceded (tag_no_case "BINARY LARGE OBJECT".toList)
        (popt (preceded_ws0 (paren_delimited large_object_length)))))
    (palt
      (pmap DataType.Blob
        (preceded (tag_no_case "BLOB".toList)
          (popt (preceded_ws0 (paren_delimited large_object_length)))))
      (palt
        (pmap DataType.Varbinary
          (preceded (tag_no_case "VARBINARY".toList)
            (popt (preceded_ws0 (paren_delimited u32)))))
        (palt
          (pmap DataType.BinaryVarying
            (preceded (tag_no_case "BINARY VARYING".toList)
              (popt (preceded_ws0 (paren_delimited u32)))))
          (pmap DataType.Binary
            (preceded (tag_no_case "BINARY".toList)
              (popt (preceded_ws0 (paren_delimited u32))))))))

/-- Embedded `exact_numeric_type` from `ansi::parser::data_types`. -/
def exact_numeric_type : P DataType :=
  palt (pmap DataType.Decimal (preceded (tag_no_case "DECIMAL".toList) exact_number_info))
    (palt (pmap DataType.Numeric (preceded (tag_no_case "NUMERIC".toList) exact_number_info))
      (palt (pmap DataType.Dec (preceded (tag_no_case "DEC".toList) exact_number_info))
        (palt (pmap (fun _ => DataType.Smallint) (tag_no_case "SMALLINT".toList))
          (palt (pmap (fun _ => DataType.Integer) (tag_no_case "INTEGER".toList))
            (palt (pmap (fun _ => DataType.Bigint) (tag_no_case "BIGINT".toList))
              (pmap (fun _ => DataType.Int) (tag_no_case "INT".toList)))))))

/-- Embedded `approximate_numeric_type` from `ansi::parser::data_types`. -/
def approximate_numeric_type : P DataType :=
  palt (pmap (fun _ => DataType.Float) (tag_no_case "FLOAT".toList))
    (palt (pmap (fun _ => DataType.Real) (tag_no_case "REAL".toList))
      (pmap (fun _ => DataType.DoublePrecision) (tag_no_case "DOUBLE PRECISION".toList)))

/-- Embedded `decimal_floating_point_type` from `ansi::parser::data_types`. -/
def decimal_floating_point_type : P DataType :=
  pmap DataType.DecFloat
    (preceded (tag_no_case "DECFLOAT".toList) (popt (preceded_ws0 (paren_delimited u32))))

/-- Embedded `boolean_type` from `ansi::parser::data_types`. -/
def boolean_type : P DataType :=
  pmap (fun _ => DataType.Boolean) (tag_no_case "BOOLEAN".toList)

/-- Embedded `datetime_type` from `ansi::parser::data_types`. -/
def datetime_type : P DataType :=
  palt (pmap (fun _ => DataType.Date) (tag_no_case "DATE".toList))
    (palt
      (pmap (fun (precision, tz_info) => DataType.Timestamp precision tz_info)
        (preceded (tag_no_case "TIMESTAMP".toList)
          (ppair (popt (paren_delimited u32)) with_or_without_timezone)))
      (pmap (fun (precision, tz_info) => DataType.Time precision tz_info)
        (preceded (tag_no_case "TIME".toList)
          (ppair (popt (paren_delimited u32)) with_or_without_timezone))))

/-- Embedded `data_type` from `ansi::parser::data_types`: the ordered alternation
over all type grammars (the source warns the order must not change). -/
def data_type : P DataType :=
  palt character_large_object_types
    (palt character_string
      (palt binary_string_types
        (palt decimal_floating_point_type
          (palt exact_numeric_type
            (palt approximate_numeric_type
              (palt boolean_type datetime_type))))))

/-- Rendering of `CharLengthUnits` (its `Display` impl). -/
def renderCharLengthUnits : CharLengthUnits → List Char
  | CharLengthUnits.Characters => "CHARACTERS".toList
  | CharLengthUnits.Octets => "OCTETS".toList

/-- Rendering of `CharacterLength` (its `Display` impl): length, then the
units behind one space when present. -/
def renderCharacterLength (l : CharacterLength) : List Char :=
  renderNat l.length ++
    (match l.opt_units with
     | none => []
     | some u => ' ' :: renderCharLengthUnits u)

/-- Rendering of `Multiplier` (its `Display` impl). -/
def renderMultiplier : Multiplier → List Char
  | Multiplier.K => ['K']
  | Multiplier.M => ['M']
  | Multiplier.G => ['G']
  | Multiplier.T => ['T']
  | Multiplier.P => ['P']

/-- Rendering of `LargeObjectLength` (its `Display` impl): length, then
the multiplier with no space when present. -/
def renderLargeObjectLength (l : LargeObjectLength) : List Char :=
  renderNat l.length ++
    (match l.multiplier with
     | none => []
     | some m => renderMultiplier m)

/-- Rendering of `CharacterLargeObjectLength` (its `Display` impl). -/
def renderCharacterLargeObjectLength (l : CharacterLargeObjectLength) : List Char :=
  renderLargeObjectLength l.length ++
    (match l.opt_units with
     | none => []
     | some u => ' ' :: renderCharLengthUnits u)

/-- Rendering of `ExactNumberInfo` (its `Display` impl): nothing,
`(precision)`, or `(precision, scale)`. -/
def renderExactNumberInfo : ExactNumberInfo → List Char
  | ExactNumberInfo.None => []
  | ExactNumberInfo.Precision p => '(' :: (renderNat p ++ [')'])
  | ExactNumberInfo.PrecisionAndScale p s =>
    '(' :: (renderNat p ++ (',' :: ' ' :: (renderNat s ++ [')'])))

/-- Rendering of `WithOrWithoutTimeZone` (its `Display` impl). -/
def renderWithOrWithoutTimeZone : WithOrWithoutTimeZone → List Char
  | WithOrWithoutTimeZone.None => []
  | WithOrWithoutTimeZone.WithTimeZone => "WITH TIME ZONE".toList
  | WithOrWithoutTimeZone.WithoutTimeZone => "WITHOUT TIME ZONE".toList

/-- Optional parenthesized character length, as the `Display` impl of
`DataType` emits it. -/
def renderOptCharacterLength : Option CharacterLength → List Char
  | none => []
  | some l => '(' :: (renderCharacterLength l ++ [')'])

/-- Optional parenthesized character-large-object length. -/
def renderOptClobLength : Option CharacterLargeObjectLength → List Char
  | none => []
  | some l => '(' :: (renderCharacterLargeObjectLength l ++ [')'])

/-- Optional parenthesized large-object length. -/
def renderOptLobLength : Option LargeObjectLength → List Char
  | none => []
  | some l => '(' :: (renderLargeObjectLength l ++ [')'])

/-- Optional parenthesized number. -/
def renderOptNatParen : Option Nat → List Char
  | none => []
  | some p => '(' :: (renderNat p ++ [')'])

/-- Time-zone tail of `TIME`/`TIMESTAMP` rendering: one space plus the
phrase, or nothing for the `None` state. -/
def renderTzTail : WithOrWithoutTimeZone → List Char
  | WithOrWithoutTimeZone.None => []
  | tz => ' ' :: renderWithOrWithoutTimeZone tz

/-- Canonical rendering of `DataType` (its `Display` impl in
`ansi::ast::data_types`).

The binary-string arms are absent from the snapshot of that file.
Modelled from the spec: binary large object types render their keyword
followed by the optional parenthesized length, exactly as the unit tests
in `ansi::parser::data_types` assert. -/
def renderDataType : DataType → List Char
  | DataType.Character l => "CHARACTER".toList ++ renderOptCharacterLength l
  | DataType.Char l => "CHAR".toList ++ renderOptCharacterLength l
  | DataType.CharacterVarying l => "CHARACTER VARYING".toList ++ renderOptCharacterLength l
  | DataType.CharVarying l => "CHAR VARYING".toList ++ renderOptCharacterLength l
  | DataType.Varchar l => "VARCHAR".toList ++ renderOptCharacterLength l
  | DataType.CharacterLargeObject l => "CHARACTER LARGE OBJECT".toList ++ renderOptClobLength l
  | DataType.CharLargeObject l => "CHAR LARGE OBJECT".toList ++ renderOptClobLength l
  | DataType.Clob l => "CLOB".toList ++ renderOptClobLength l
  | DataType.BinaryLargeObject l => "BINARY LARGE OBJECT".toList ++ renderOptLobLength l
  | DataType.Blob l => "BLOB".toList ++ renderOptLobLength l
  | DataType.Varbinary p => "VARBINARY".toList ++ renderOptNatParen p
  | DataType.BinaryVarying p => "BINARY VARYING".toList ++ renderOptNatParen p
  | DataType.Binary p => "BINARY".toList ++ renderOptNatParen p
  | DataType.Numeric e => "NUMERIC".toList ++ renderExactNumberInfo e
  | DataType.Decimal e => "DECIMAL".toList ++ renderExactNumberInfo e
  | DataType.Dec e => "DEC".toList ++ renderExactNumberInfo e
  | DataType.Smallint => "SMALLINT".toList
  | DataType.Integer => "INTEGER".toList
  | DataType.Int => "INT".toList
  | DataType.Bigint => "BIGINT".toList
  | DataType.Float => "FLOAT".toList
  | DataType.Real => "REAL".toList
  | DataType.DoublePrecision => "DOUBLE PRECISION".toList
  | DataType.DecFloat p => "DECFLOAT".toList ++ renderOptNatParen p
  | DataType.Boolean => "BOOLEAN".toList
  | DataType.Date => "DATE".toList
  | DataType.Time p tz => "TIME".toList ++ renderOptNatParen p ++ renderTzTail tz
  | DataType.Timestamp p tz => "TIMESTAMP".toList ++ renderOptNatParen p ++ renderTzTail tz

/-- The numeric payloads of a `DataType` value all fit in 32 bits, as the
parser guarantees for every value it builds. -/
def u32Bound (n : Nat) : Bool := decide (n < 4294967296)

/-- Well-formedness of a `LargeObjectLength` payload. -/
def wfLob (l : LargeObjectLength) : Bool := u32Bound l.length

/-- Well-formedness of a `CharacterLength` payload. -/
def wfCharLen (l : CharacterLength) : Bool := u32Bound l.length

/-- Well-formedness of a `CharacterLargeObjectLength` payload. -/
def wfClobLen (l : CharacterLargeObjectLength) : Bool := wfLob l.length

/-- Well-formedness of an `ExactNumberInfo` payload. -/
def wfExactNumberInfo : ExactNumberInfo → Bool
  | ExactNumberInfo.None => true
  | ExactNumberInfo.Precision p => u32Bound p
  | ExactNumberInfo.PrecisionAndScale p s => u32Bound p && u32Bound s

/-- Well-formedness of a `DataType` value: every numeric payload fits in
32 bits (`u32` in the source). -/
def wfDataType : DataType → Bool
  | DataType.Character l => l.all wfCharLen
  | DataType.Char l => l.all wfCharLen
  | DataType.CharacterVarying l => l.all wfCharLen
  | DataType.CharVarying l => l.all wfCharLen
  | DataType.Varchar l => l.all wfCharLen
  | DataType.CharacterLargeObject l => l.all wfClobLen
  | DataType.CharLargeObject l => l.all wfClobLen
  | DataType.Clob l => l.all wfClobLen
  | DataType.BinaryLargeObject l => l.all wfLob
  | DataType.Blob l => l.all wfLob
  | DataType.Varbinary p => p.all u32Bound
  | DataType.BinaryVarying p => p.all u32Bound
  | DataType.Binary p => p.all u32Bound
  | DataType.Numeric e => wfExactNumberInfo e
  | DataType.Decimal e => wfExactNumberInfo e
  | DataType.Dec e => wfExactNumberInfo e
  | DataType.DecFloat p => p.all u32Bound
  | DataType.Time p _ => p.all u32Bound
  | DataType.Timestamp p _ => p.all u32Bound
  | _ => true

theorem pmap_none {α β : Type} {f : α → β} {p : P α} {i : List Char}
    (h : p i = none) : pmap f p i = none := by
  simp [pmap, h]

theorem pmap_some {α β : Type} {f : α → β} {p : P α} {i r : List Char} {a : α}
    (h : p i = some (r, a)) : pmap f p i = some (r, f a) := by
  simp [pmap, h]

theorem preceded_none {α β : Type} {p : P α} {q : P β} {i : List Char}
    (h : p i = none) : preceded p q i = none := by
  simp [preceded, h]

theorem terminated_none {α β : Type} {p : P α} {q : P β} {i : List Char}
    (h : p i = none) : terminated p q i = none := by
  simp [terminated, h]

theorem terminated_step {α β : Type} {p : P α} {q : P β} {i r : List Char}
    {a : α} (h : p i = some (r, a)) :
    terminated p q i = (q r).map (fun rb => (rb.1, a)) := by
  cases hq : q r with
  | none => simp [terminated, h, hq]
  | some rb => simp [terminated, h, hq]

theorem ppair_none {α β : Type} {p : P α} {q : P β} {i : List Char}
    (h : p i = none) : ppair p q i = none := by
  simp [ppair, h]

theorem ppair_step {α β : Type} {p : P α} {q : P β} {i r : List Char}
    {a : α} (h : p i = some (r, a)) :
    ppair p q i = (q r).map (fun rb => (rb.1, (a, rb.2))) := by
  cases hq : q r with
  | none => simp [ppair, h, hq]
  | some rb => simp [ppair, h, hq]

theorem dropWhile_headNot {p : Char → Bool} {X : List Char}
    (h : headNot p X) : X.dropWhile p = X := by
  cases X with
  | nil => rfl
  | cons c cs => simp [List.dropWhile, show p c = false from h]

theorem takeWhile_headNot {p : Char → Bool} {X : List Char}
    (h : headNot p X) : X.takeWhile p = [] := by
  cases X with
  | nil => rfl
  | cons c cs => simp [List.takeWhile, show p c = false from h]

theorem whitespace0_space {X : List Char} (h : headNot is_whitespace X) :
    whitespace0 (' ' :: X) = some (X, [' ']) := by
  simp [whitespace0, List.dropWhile, List.takeWhile, is_whitespace,
    dropWhile_headNot h, takeWhile_headNot h]

theorem left_paren_eval (X : List Char) : left_paren ('(' :: X) = some (X, ['(']) := by
  simp [left_paren, tag, List.isPrefixOf]

theorem right_paren_eval (X : List Char) : right_paren (')' :: X) = some (X, [')']) := by
  simp [right_paren, tag, List.isPrefixOf]

theorem comma_eval (X : List Char) : comma (',' :: X) = some (X, [',']) := by
  simp [comma, tag, List.isPrefixOf]

theorem preceded_ws0_headNot {α : Type} {p : P α} {i : List Char}
    (h : headNot is_whitespace i) : preceded_ws0 p i = p i := by
  rw [preceded_ws0, preceded_step (whitespace0_headNot h)]

/-- Evaluation of `paren_delimited` when the payload parser consumes
everything up to the closing parenthesis. -/
theorem paren_delimited_eval {α : Type} {p : P α} {X r : List Char} {a : α}
    (hx : headNot is_whitespace X) (hp : p X = some (')' :: r, a)) :
    paren_delimited p ('(' :: X) = some (r, a) := by
  unfold paren_delimited delimitedP
  have h1 : terminated_ws0 left_paren ('(' :: X) = some (X, ['(']) := by
    rw [terminated_ws0, terminated_step (left_paren_eval X), whitespace0_headNot hx]
    rfl
  rw [preceded_step h1, terminated_step hp]
  have h2 : preceded_ws0 right_paren (')' :: r) = some (r, [')']) := by
    rw [preceded_ws0_headNot (by exact rfl), right_paren_eval]
  rw [h2]
  rfl

/-- Failure of `paren_delimited` when the payload parser fails. -/
theorem paren_delimited_none {α : Type} {p : P α} {X : List Char}
    (hx : headNot is_whitespace X) (hp : p X = none) :
    paren_delimited p ('(' :: X) = none := by
  unfold paren_delimited delimitedP
  have h1 : terminated_ws0 left_paren ('(' :: X) = some (X, ['(']) := by
    rw [terminated_ws0, terminated_step (left_paren_eval X), whitespace0_headNot hx]
    rfl
  rw [preceded_step h1, terminated_none hp]

theorem headNot_digits_ws (n : Nat) (R : List Char) :
    headNot is_whitespace (renderNat n ++ R) :=
  (headNot_of_digits_head n R).1

/-- The units tail of a character length, followed by a closing paren. -/
theorem char_len_pair_eval (n : Nat) (hn : n < 4294967296)
    (u : Option CharLengthUnits) :
    ppair u32 (popt (preceded_ws1 char_length_units))
      (renderCharacterLength ⟨n, u⟩ ++ [')']) = some ([')'], (n, u)) := by
  cases u with
  | none =>
    have hshape : renderCharacterLength ⟨n, (none : Option CharLengthUnits)⟩ ++ [')']
        = renderNat n ++ [')'] := by
      simp [renderCharacterLength]
    rw [hshape, ppair_step (u32_render n hn [')'] (by exact rfl))]
    rfl
  | some uu =>
    have hshape : renderCharacterLength ⟨n, some uu⟩ ++ [')']
        = renderNat n ++ (' ' :: (renderCharLengthUnits uu ++ [')'])) := by
      simp [renderCharacterLength]
    rw [hshape, ppair_step (u32_render n hn _ (by exact rfl))]
    cases uu <;> rfl

/-- Parsing back a rendered optional character length. -/
theorem opt_character_length_some (l : CharacterLength) (h : wfCharLen l = true) :
    opt_character_length ('(' :: (renderCharacterLength l ++ [')'])) = some ([], some l) := by
  obtain ⟨n, u⟩ := l
  have hn : n < 4294967296 := by simpa [wfCharLen, u32Bound] using h
  have hx : headNot is_whitespace (renderCharacterLength ⟨n, u⟩ ++ [')']) := by
    cases u with
    | none =>
      rw [show renderCharacterLength ⟨n, (none : Option CharLengthUnits)⟩ ++ [')']
          = renderNat n ++ [')'] by simp [renderCharacterLength]]
      exact headNot_digits_ws n _
    | some uu =>
      rw [show renderCharacterLength ⟨n, some uu⟩ ++ [')']
          = renderNat n ++ (' ' :: (renderCharLengthUnits uu ++ [')']))
          by simp [renderCharacterLength]]
      exact headNot_digits_ws n _
  have hin := paren_delimited_eval hx (char_len_pair_eval n hn u)
  rw [opt_character_length, pmap_some (popt_some hin)]

/-- Parsing back a rendered large-object length: the digits, then the
optional multiplier letter. The trailing input must not extend the
number or look like a multiplier. -/
theorem large_object_length_eval (l : LargeObjectLength)
    (h : u32Bound l.length = true) (rest : List Char)
    (hrest : headNot isDigitChar rest) (hm : multiplier rest = none) :
    large_object_length (renderLargeObjectLength l ++ rest) = some (rest, l) := by
  obtain ⟨n, m⟩ := l
  have hn : n < 4294967296 := by simpa [u32Bound] using h
  cases m with
  | none =>
    have hshape : renderLargeObjectLength ⟨n, (none : Option Multiplier)⟩ ++ rest
        = renderNat n ++ rest := by
      simp [renderLargeObjectLength]
    rw [large_object_length, hshape, pmap_step, ppair_step (u32_render n hn rest hrest),
      popt_none hm]
    rfl
  | some mm =>
    have hshape : renderLargeObjectLength ⟨n, some mm⟩ ++ rest
        = renderNat n ++ (renderMultiplier mm ++ rest) := by
      simp [renderLargeObjectLength]
    have hd : headNot isDigitChar (renderMultiplier mm ++ rest) := by
      cases mm <;> exact rfl
    have hmm : multiplier (renderMultiplier mm ++ rest) = some (rest, mm) := by
      cases mm <;> rfl
    rw [large_object_length, hshape, pmap_step, ppair_step (u32_render n hn _ hd),
      popt_some hmm]
    rfl

/-- Parsing back a rendered character-large-object length up to the
closing parenthesis. -/
theorem character_large_object_length_eval (l : CharacterLargeObjectLength)
    (h : wfClobLen l = true) :
    character_large_object_length (renderCharacterLargeObjectLength l ++ [')'])
      = some ([')'], l) := by
  obtain ⟨lob, u⟩ := l
  have hlob : u32Bound lob.length = true := by simpa [wfClobLen] using h
  cases u with
  | none =>
    have hshape : renderCharacterLargeObjectLength ⟨lob, (none : Option CharLengthUnits)⟩ ++ [')']
        = renderLargeObjectLength lob ++ [')'] := by
      simp [renderCharacterLargeObjectLength]
    rw [character_large_object_length, hshape, pmap_step,
      ppair_step (large_object_length_eval lob hlob [')'] (by exact rfl) (by exact rfl))]
    rfl
  | some uu =>
    have hshape : renderCharacterLargeObjectLength ⟨lob, some uu⟩ ++ [')']
        = renderLargeObjectLength lob ++ (' ' :: (renderCharLengthUnits uu ++ [')'])) := by
      simp [renderCharacterLargeObjectLength]
    have hm : multiplier (' ' :: (renderCharLengthUnits uu ++ [')'])) = none := by
      cases uu <;> rfl
    rw [character_large_object_length, hshape, pmap_step,
      ppair_step (large_object_length_eval lob hlob _ (by exact rfl) hm)]
    cases uu <;> rfl

/-- Parsing back a rendered exact-number-info suffix. -/
theorem exact_number_info_render (e : ExactNumberInfo)
    (h : wfExactNumberInfo e = true) :
    exact_number_info (renderExactNumberInfo e) = some ([], e) := by
  cases e with
  | None => rfl
  | Precision p =>
    have hp : p < 4294967296 := by simpa [wfExactNumberInfo, u32Bound] using h
    have hx : headNot is_whitespace (renderNat p ++ [')']) := headNot_digits_ws p _
    have halt1 :
        paren_delimited (separated_pair u32 (delimited_ws0 comma) u32)
          ('(' :: (renderNat p ++ [')'])) = none := by
      apply paren_delimited_none hx
      rw [separated_pair, ppair_none]
      rw [terminated_step (u32_render p hp [')'] (by exact rfl))]
      rfl
    have halt2 : paren_delimited u32 ('(' :: (renderNat p ++ [')']))
        = some ([], p) := by
      exact paren_delimited_eval hx (u32_render p hp [')'] (by exact rfl))
    rw [renderExactNumberInfo, exact_number_info, palt_none (pmap_none halt1),
      palt_some (pmap_some halt2)]
  | PrecisionAndScale p s =>
    have hp : p < 4294967296 := by
      simp [wfExactNumberInfo, u32Bound, Bool.and_eq_true] at h
      exact h.1
    have hs : s < 4294967296 := by
      simp [wfExactNumberInfo, u32Bound, Bool.and_eq_true] at h
      exact h.2
    have hx : headNot is_whitespace
        (renderNat p ++ (',' :: ' ' :: (renderNat s ++ [')']))) := headNot_digits_ws p _
    have hsep : separated_pair u32 (delimited_ws0 comma) u32
        (renderNat p ++ (',' :: ' ' :: (renderNat s ++ [')'])))
        = some (')' :: [], (p, s)) := by
      rw [separated_pair]
      have hcomma : delimited_ws0 comma (',' :: ' ' :: (renderNat s ++ [')']))
          = some (renderNat s ++ [')'], [',']) := by
        rw [delimited_ws0, delimitedP,
          preceded_step (whitespace0_headNot (by exact rfl)),
          terminated_step (comma_eval (' ' :: (renderNat s ++ [')']))),
          whitespace0_space (headNot_digits_ws s _)]
        rfl
      rw [ppair_step (by
        rw [terminated_step (u32_render p hp _ (by exact rfl)), hcomma]
        rfl)]
      rw [u32_render s hs [')'] (by exact rfl)]
      rfl
    have halt1 :
        paren_delimited (separated_pair u32 (delimited_ws0 comma) u32)
          ('(' :: (renderNat p ++ (',' :: ' ' :: (renderNat s ++ [')']))))
          = some ([], (p, s)) := paren_delimited_eval hx hsep
    rw [renderExactNumberInfo, exact_number_info, palt_some (pmap_some halt1)]

/-- Parsing back a rendered time-zone tail. -/
theorem with_or_without_timezone_render (tz : WithOrWithoutTimeZone) :
    with_or_without_timezone (renderTzTail tz) = some ([], tz) := by
  cases tz <;> decide

/-- Parsing back a rendered optional parenthesized precision followed by
the rendered time-zone tail. -/
theorem popt_paren_u32_tz (p : Option Nat) (hp : p.all u32Bound = true)
    (tz : WithOrWithoutTimeZone) :
    popt (paren_delimited u32) (renderOptNatParen p ++ renderTzTail tz)
      = some (renderTzTail tz, p) := by
  cases p with
  | none =>
    have hfail : paren_delimited u32 (renderTzTail tz) = none := by
      cases tz <;> rfl
    rw [show renderOptNatParen none ++ renderTzTail tz = renderTzTail tz by
      simp [renderOptNatParen]]
    rw [popt_none hfail]
  | some n =>
    have hn : n < 4294967296 := by simpa [u32Bound] using hp
    have hshape : renderOptNatParen (some n) ++ renderTzTail tz
        = '(' :: (renderNat n ++ (')' :: renderTzTail tz)) := by
      simp [renderOptNatParen]
    have hd : headNot isDigitChar (')' :: renderTzTail tz) := by exact rfl
    rw [hshape, popt_some (paren_delimited_eval (headNot_digits_ws n _)
      (u32_render n hn _ hd))]

/-- Re-associate a keyword-plus-character prefix in a parser evaluation. -/
theorem eval_cons_bridge {α : Type} {g : P α} {kw : List Char} {c : Char}
    {X : List Char} {o : Option (List Char × α)}
    (h : g ((kw ++ [c]) ++ X) = o) : g (kw ++ (c :: X)) = o := by
  rw [List.append_assoc] at h
  exact h

/-- The character-large-object group fails when none of its keywords can
match the given concrete prefix. -/
theorem character_large_object_types_append_none (s : List Char)
    (h1 : noCaseCanMatch "CHARACTER LARGE OBJECT".toList s = false)
    (h2 : noCaseCanMatch "CHAR LARGE OBJECT".toList s = false)
    (h3 : noCaseCanMatch "CLOB".toList s = false) (rest : List Char) :
    character_large_object_types (s ++ rest) = none := by
  rw [character_large_object_types,
    palt_none (pmap_none (preceded_none (tag_no_case_append_none _ _ h1 rest))),
    palt_none (pmap_none (preceded_none (tag_no_case_append_none _ _ h2 rest)))]
  exact pmap_none (preceded_none (tag_no_case_append_none _ _ h3 rest))

theorem terminated_ws0_none {α : Type} {p : P α} {i : List Char}
    (h : p i = none) : terminated_ws0 p i = none := terminated_none h

/-- The character-string group fails when none of its keywords can match
the given concrete prefix. -/
theorem character_string_append_none (s : List Char)
    (h1 : noCaseCanMatch "CHARACTER VARYING".toList s = false)
    (h2 : noCaseCanMatch "CHAR VARYING".toList s = false)
    (h3 : noCaseCanMatch "CHARACTER".toList s = false)
    (h4 : noCaseCanMatch "VARCHAR".toList s = false)
    (h5 : noCaseCanMatch "CHAR".toList s = false) (rest : List Char) :
    character_string (s ++ rest) = none := by
  rw [character_string,
    palt_none (pmap_none (preceded_none (terminated_ws0_none (tag_no_case_append_none _ _ h1 rest)))),
    palt_none (pmap_none (preceded_none (terminated_ws0_none (tag_no_case_append_none _ _ h2 rest)))),
    palt_none (pmap_none (preceded_none (terminated_ws0_none (tag_no_case_append_none _ _ h3 rest)))),
    palt_none (pmap_none (preceded_none (terminated_ws0_none (tag_no_case_append_none _ _ h4 rest))))]
  exact pmap_none (preceded_none (terminated_ws0_none (tag_no_case_append_none _ _ h5 rest)))

/-- The binary-string group fails when none of its keywords can match the
given concrete prefix. -/
theorem binary_string_types_append_none (s : List Char)
    (h1 : noCaseCanMatch "BINARY LARGE OBJECT".toList s = false)
    (h2 : noCaseCanMatch "BLOB".toList s = false)
    (h3 : noCaseCanMatch "VARBINARY".toList s = false)
    (h4 : noCaseCanMatch "BINARY VARYING".toList s = false)
    (h5 : noCaseCanMatch "BINARY".toList s = false) (rest : List Char) :
    binary_string_types (s ++ rest) = none := by
  rw [binary_string_types,
    palt_none (pmap_none (preceded_none (tag_no_case_append_none _ _ h1 rest))),
    palt_none (pmap_none (preceded_none (tag_no_case_append_none _ _ h2 rest))),
    palt_none (pmap_none (preceded_none (tag_no_case_append_none _ _ h3 rest))),
    palt_none (pmap_none (preceded_none (tag_no_case_append_none _ _ h4 rest)))]
  exact pmap_none (preceded_none (tag_no_case_append_none _ _ h5 rest))

/-- The decimal-floating-point rule fails when `DECFLOAT` cannot match the
given concrete prefix. -/
theorem decimal_floating_point_type_append_none (s : List Char)
    (h1 : noCaseCanMatch "DECFLOAT".toList s = false) (rest : List Char) :
    decimal_floating_point_type (s ++ rest) = none := by
  rw [decimal_floating_point_type]
  exact pmap_none (preceded_none (tag_no_case_append_none _ _ h1 rest))

/-- The exact-numeric group fails when none of its keywords can match the
given concrete prefix. -/
theorem exact_numeric_type_append_none (s : List Char)
    (h1 : noCaseCanMatch "DECIMAL".toList s = false)
    (h2 : noCaseCanMatch "NUMERIC".toList s = false)
    (h3 : noCaseCanMatch "DEC".toList s = false)
    (h4 : noCaseCanMatch "SMALLINT".toList s = false)
    (h5 : noCaseCanMatch "INTEGER".toList s = false)
    (h6 : noCaseCanMatch "BIGINT".toList s = false)
    (h7 : noCaseCanMatch "INT".toList s = false) (rest : List Char) :
    exact_numeric_type (s ++ rest) = none := by
  rw [exact_numeric_type,
    palt_none (pmap_none (preceded_none (tag_no_case_append_none _ _ h1 rest))),
    palt_none (pmap_none (preceded_none (tag_no_case_append_none _ _ h2 rest))),
    palt_none (pmap_none (preceded_none (tag_no_case_append_none _ _ h3 rest))),
    palt_none (pmap_none (tag_no_case_append_none _ _ h4 rest)),
    palt_none (pmap_none (tag_no_case_append_none _ _ h5 rest)),
    palt_none (pmap_none (tag_no_case_append_none _ _ h6 rest))]
  exact pmap_none (tag_no_case_append_none _ _ h7 rest)

/-- The approximate-numeric group fails when none of its keywords can
match the given concrete prefix. -/
theorem approximate_numeric_type_append_none (s : List Char)
    (h1 : noCaseCanMatch "FLOAT".toList s = false)
    (h2 : noCaseCanMatch "REAL".toList s = false)
    (h3 : noCaseCanMatch "DOUBLE PRECISION".toList s = false) (rest : List Char) :
    approximate_numeric_type (s ++ rest) = none := by
  rw [approximate_numeric_type,
    palt_none (pmap_none (tag_no_case_append_none _ _ h1 rest)),
    palt_none (pmap_none (tag_no_case_append_none _ _ h2 rest))]
  exact pmap_none (tag_no_case_append_none _ _ h3 rest)

/-- The boolean rule fails when `BOOLEAN` cannot match the given concrete
prefix. -/
theorem boolean_type_append_none (s : List Char)
    (h1 : noCaseCanMatch "BOOLEAN".toList s = false) (rest : List Char) :
    boolean_type (s ++ rest) = none := by
  rw [boolean_type]
  exact pmap_none (tag_no_case_append_none _ _ h1 rest)

/-- Keyword-plus-optional-character-length alternative of
`character_string` succeeding on its own rendering. -/
theorem cs_alt_eval (kw : List Char) (l : CharacterLength) (h : wfCharLen l = true)
    (ctor : Option CharacterLength → DataType) :
    pmap ctor (preceded (terminated_ws0 (tag_no_case kw)) opt_character_length)
      (kw ++ ('(' :: (renderCharacterLength l ++ [')'])))
      = some ([], ctor (some l)) := by
  have htag : terminated_ws0 (tag_no_case kw)
      (kw ++ ('(' :: (renderCharacterLength l ++ [')'])))
      = some ('(' :: (renderCharacterLength l ++ [')']), kw) := by
    rw [terminated_ws0, terminated_step (tag_no_case_self kw _),
      whitespace0_headNot (by exact rfl)]
    rfl
  exact pmap_some (Eq.trans (preceded_step htag) (opt_character_length_some l h))

/-- Keyword-plus-optional-CLOB-length alternative succeeding on its own
rendering. -/
theorem clob_alt_eval (kw : List Char) (L : CharacterLargeObjectLength)
    (h : wfClobLen L = true) (ctor : Option CharacterLargeObjectLength → DataType) :
    pmap ctor (preceded (tag_no_case kw) (popt (paren_delimited character_large_object_length)))
      (kw ++ ('(' :: (renderCharacterLargeObjectLength L ++ [')'])))
      = some ([], ctor (some L)) := by
  have hx : headNot is_whitespace (renderCharacterLargeObjectLength L ++ [')']) := by
    obtain ⟨⟨n, m⟩, u⟩ := L
    simp only [renderCharacterLargeObjectLength, renderLargeObjectLength, List.append_assoc]
    exact headNot_digits_ws n _
  exact pmap_some (Eq.trans (preceded_step (tag_no_case_self kw _))
    (popt_some (paren_delimited_eval hx (character_large_object_length_eval L h))))

/-- Keyword-plus-optional-large-object-length alternative succeeding on
its own rendering. -/
theorem lob_alt_eval (kw : List Char) (L : LargeObjectLength)
    (h : u32Bound L.length = true) (ctor : Option LargeObjectLength → DataType) :
    pmap ctor (preceded (tag_no_case kw) (popt (preceded_ws0 (paren_delimited large_object_length))))
      (kw ++ ('(' :: (renderLargeObjectLength L ++ [')'])))
      = some ([], ctor (some L)) := by
  have hx : headNot is_whitespace (renderLargeObjectLength L ++ [')']) := by
    obtain ⟨n, m⟩ := L
    simp only [renderLargeObjectLength, List.append_assoc]
    exact headNot_digits_ws n _
  have hparen := paren_delimited_eval hx
    (large_object_length_eval L h [')'] (by exact rfl) (by exact rfl))
  exact pmap_some (Eq.trans (preceded_step (tag_no_case_self kw _))
    (popt_some (Eq.trans (preceded_ws0_headNot (by exact rfl)) hparen)))

/-- Keyword-plus-optional-parenthesized-number alternative succeeding on
its own rendering. -/
theorem nat_paren_alt_eval (kw : List Char) (n : Nat) (hn : n < 4294967296)
    (ctor : Option Nat → DataType) :
    pmap ctor (preceded (tag_no_case kw) (popt (preceded_ws0 (paren_delimited u32))))
      (kw ++ ('(' :: (renderNat n ++ [')'])))
      = some ([], ctor (some n)) := by
  have hparen := paren_delimited_eval (headNot_digits_ws n _)
    (u32_render n hn [')'] (by exact rfl))
  exact pmap_some (Eq.trans (preceded_step (tag_no_case_self kw _))
    (popt_some (Eq.trans (preceded_ws0_headNot (by exact rfl)) hparen)))

/-- Keyword-plus-exact-number-info alternative succeeding on its own
rendering. -/
theorem eni_alt_eval (kw : List Char) (e : ExactNumberInfo)
    (h : wfExactNumberInfo e = true) (ctor : ExactNumberInfo → DataType) :
    pmap ctor (preceded (tag_no_case kw) exact_number_info)
      (kw ++ renderExactNumberInfo e) = some ([], ctor e) :=
  pmap_some (Eq.trans (preceded_step (tag_no_case_self kw _))
    (exact_number_info_render e h))

/-- Optional precision and time-zone pair of a datetime type, parsed back
from its rendering. -/
theorem tz_pair_eval (n : Nat) (hn : n < 4294967296) (tz : WithOrWithoutTimeZone) :
    ppair (popt (paren_delimited u32)) with_or_without_timezone
      ('(' :: (renderNat n ++ (')' :: renderTzTail tz))) = some ([], (some n, tz)) := by
  have hpopt := popt_some (paren_delimited_eval (headNot_digits_ws n _)
    (u32_render n hn (')' :: renderTzTail tz) (by exact rfl)))
  rw [ppair_step hpopt, with_or_without_timezone_render]
  rfl

theorem dt_character_varying_some (l : CharacterLength) (h : wfCharLen l = true) :
    data_type ("CHARACTER VARYING".toList ++ ('(' :: (renderCharacterLength l ++ [')'])))
      = some ([], DataType.CharacterVarying (some l)) := by
  have hcs : character_string
      ("CHARACTER VARYING".toList ++ ('(' :: (renderCharacterLength l ++ [')'])))
      = some ([], DataType.CharacterVarying (some l)) := by
    rw [character_string,
      palt_some (cs_alt_eval "CHARACTER VARYING".toList l h DataType.CharacterVarying)]
  rw [data_type,
    palt_none (character_large_object_types_append_none "CHARACTER VARYING".toList
      (by decide) (by decide) (by decide) _),
    palt_some hcs]

theorem dt_char_varying_some (l : CharacterLength) (h : wfCharLen l = true) :
    data_type ("CHAR VARYING".toList ++ ('(' :: (renderCharacterLength l ++ [')'])))
      = some ([], DataType.CharVarying (some l)) := by
  have hcs : character_string
      ("CHAR VARYING".toList ++ ('(' :: (renderCharacterLength l ++ [')'])))
      = some ([], DataType.CharVarying (some l)) := by
    rw [character_string,
      palt_none (pmap_none (preceded_none (terminated_ws0_none
        (tag_no_case_append_none _ "CHAR VARYING".toList (by decide) _)))),
      palt_some (cs_alt_eval "CHAR VARYING".toList l h DataType.CharVarying)]
  rw [data_type,
    palt_none (character_large_object_types_append_none "CHAR VARYING".toList
      (by decide) (by decide) (by decide) _),
    palt_some hcs]

theorem dt_character_some (l : CharacterLength) (h : wfCharLen l = true) :
    data_type ("CHARACTER".toList ++ ('(' :: (renderCharacterLength l ++ [')'])))
      = some ([], DataType.Character (some l)) := by
  have hcs : character_string
      ("CHARACTER".toList ++ ('(' :: (renderCharacterLength l ++ [')'])))
      = some ([], DataType.Character (some l)) := by
    rw [character_string,
      palt_none (pmap_none (preceded_none (terminated_ws0_none
        (eval_cons_bridge (tag_no_case_append_none "CHARACTER VARYING".toList
          ("CHARACTER".toList ++ ['(']) (by decide) _))))),
      palt_none (pmap_none (preceded_none (terminated_ws0_none
        (tag_no_case_append_none _ "CHARACTER".toList (by decide) _)))),
      palt_some (cs_alt_eval "CHARACTER".toList l h DataType.Character)]
  rw [data_type,
    palt_none (eval_cons_bridge (character_large_object_types_append_none
      ("CHARACTER".toList ++ ['(']) (by decide) (by decide) (by decide) _)),
    palt_some hcs]

theorem dt_varchar_some (l : CharacterLength) (h : wfCharLen l = true) :
    data_type ("VARCHAR".toList ++ ('(' :: (renderCharacterLength l ++ [')'])))
      = some ([], DataType.Varchar (some l)) := by
  have hcs : character_string
      ("VARCHAR".toList ++ ('(' :: (renderCharacterLength l ++ [')'])))
      = some ([], DataType.Varchar (some l)) := by
    rw [character_string,
      palt_none (pmap_none (preceded_none (terminated_ws0_none
        (tag_no_case_append_none _ "VARCHAR".toList (by decide) _)))),
      palt_none (pmap_none (preceded_none (terminated_ws0_none
        (tag_no_case_append_none _ "VARCHAR".toList (by decide) _)))),
      palt_none (pmap_none (preceded_none (terminated_ws0_none
        (tag_no_case_append_none _ "VARCHAR".toList (by decide) _)))),
      palt_some (cs_alt_eval "VARCHAR".toList l h DataType.Varchar)]
  rw [data_type,
    palt_none (character_large_object_types_append_none "VARCHAR".toList
      (by decide) (by decide) (by decide) _),
    palt_some hcs]

theorem dt_char_some (l : CharacterLength) (h : wfCharLen l = true) :
    data_type ("CHAR".toList ++ ('(' :: (renderCharacterLength l ++ [')'])))
      = some ([], DataType.Char (some l)) := by
  have hcs : character_string
      ("CHAR".toList ++ ('(' :: (renderCharacterLength l ++ [')'])))
      = some ([], DataType.Char (some l)) := by
    rw [character_string,
      palt_none (pmap_none (preceded_none (terminated_ws0_none
        (eval_cons_bridge (tag_no_case_append_none "CHARACTER VARYING".toList
          ("CHAR".toList ++ ['(']) (by decide) _))))),
      palt_none (pmap_none (preceded_none (terminated_ws0_none
        (eval_cons_bridge (tag_no_case_append_none "CHAR VARYING".toList
          ("CHAR".toList ++ ['(']) (by decide) _))))),
      palt_none (pmap_none (preceded_none (terminated_ws0_none
        (eval_cons_bridge (tag_no_case_append_none "CHARACTER".toList
          ("CHAR".toList ++ ['(']) (by decide) _))))),
      palt_none (pmap_none (preceded_none (terminated_ws0_none
        (eval_cons_bridge (tag_no_case_append_none "VARCHAR".toList
          ("CHAR".toList ++ ['(']) (by decide) _)))))]
    exact cs_alt_eval "CHAR".toList l h DataType.Char
  rw [data_type,
    palt_none (eval_cons_bridge (character_large_object_types_append_none
      ("CHAR".toList ++ ['(']) (by decide) (by decide) (by decide) _)),
    palt_some hcs]

theorem dt_character_large_object_some (L : CharacterLargeObjectLength)
    (h : wfClobLen L = true) :
    data_type ("CHARACTER LARGE OBJECT".toList
        ++ ('(' :: (renderCharacterLargeObjectLength L ++ [')'])))
      = some ([], DataType.CharacterLargeObject (some L)) := by
  have hg : character_large_object_types ("CHARACTER LARGE OBJECT".toList
      ++ ('(' :: (renderCharacterLargeObjectLength L ++ [')'])))
      = some ([], DataType.CharacterLargeObject (some L)) := by
    rw [character_large_object_types,
      palt_some (clob_alt_eval "CHARACTER LARGE OBJECT".toList L h
        DataType.CharacterLargeObject)]
  rw [data_type, palt_some hg]

theorem dt_char_large_object_some (L : CharacterLargeObjectLength)
    (h : wfClobLen L = true) :
    data_type ("CHAR LARGE OBJECT".toList
        ++ ('(' :: (renderCharacterLargeObjectLength L ++ [')'])))
      = some ([], DataType.CharLargeObject (some L)) := by
  have hg : character_large_object_types ("CHAR LARGE OBJECT".toList
      ++ ('(' :: (renderCharacterLargeObjectLength L ++ [')'])))
      = some ([], DataType.CharLargeObject (some L)) := by
    rw [character_large_object_types,
      palt_none (pmap_none (preceded_none
        (tag_no_case_append_none _ "CHAR LARGE OBJECT".toList (by decide) _))),
      palt_some (clob_alt_eval "CHAR LARGE OBJECT".toList L h DataType.CharLargeObject)]
  rw [data_type, palt_some hg]

theorem dt_clob_some (L : CharacterLargeObjectLength) (h : wfClobLen L = true) :
    data_type ("CLOB".toList ++ ('(' :: (renderCharacterLargeObjectLength L ++ [')'])))
      = some ([], DataType.Clob (some L)) := by
  have hg : character_large_object_types
      ("CLOB".toList ++ ('(' :: (renderCharacterLargeObjectLength L ++ [')'])))
      = some ([], DataType.Clob (some L)) := by
    rw [character_large_object_types,
      palt_none (pmap_none (preceded_none
        (tag_no_case_append_none _ "CLOB".toList (by decide) _))),
      palt_none (pmap_none (preceded_none
        (tag_no_case_append_none _ "CLOB".toList (by decide) _)))]
    exact clob_alt_eval "CLOB".toList L h DataType.Clob
  rw [data_type, palt_some hg]

theorem dt_binary_large_object_some (L : LargeObjectLength)
    (h : u32Bound L.length = true) :
    data_type ("BINARY LARGE OBJECT".toList ++ ('(' :: (renderLargeObjectLength L ++ [')'])))
      = some ([], DataType.BinaryLargeObject (some L)) := by
  have hg : binary_string_types
      ("BINARY LARGE OBJECT".toList ++ ('(' :: (renderLargeObjectLength L ++ [')'])))
      = some ([], DataType.BinaryLargeObject (some L)) := by
    rw [binary_string_types,
      palt_some (lob_alt_eval "BINARY LARGE OBJECT".toList L h DataType.BinaryLargeObject)]
  rw [data_type,
    palt_none (character_large_object_types_append_none "BINARY LARGE OBJECT".toList
      (by decide) (by decide) (by decide) _),
    palt_none (character_string_append_none "BINARY LARGE OBJECT".toList
      (by decide) (by decide) (by decide) (by decide) (by decide) _),
    palt_some hg]

theorem dt_blob_some (L : LargeObjectLength) (h : u32Bound L.length = true) :
    data_type ("BLOB".toList ++ ('(' :: (renderLargeObjectLength L ++ [')'])))
      = some ([], DataType.Blob (some L)) := by
  have hg : binary_string_types
      ("BLOB".toList ++ ('(' :: (renderLargeObjectLength L ++ [')'])))
      = some ([], DataType.Blob (some L)) := by
    rw [binary_string_types,
      palt_none (pmap_none (preceded_none
        (tag_no_case_append_none _ "BLOB".toList (by decide) _))),
      palt_some (lob_alt_eval "BLOB".toList L h DataType.Blob)]
  rw [data_type,
    palt_none (character_large_object_types_append_none "BLOB".toList
      (by decide) (by decide) (by decide) _),
    palt_none (character_string_append_none "BLOB".toList
      (by decide) (by decide) (by decide) (by decide) (by decide) _),
    palt_some hg]

theorem dt_varbinary_some (n : Nat) (hn : n < 4294967296) :
    data_type ("VARBINARY".toList ++ ('(' :: (renderNat n ++ [')'])))
      = some ([], DataType.Varbinary (some n)) := by
  have hg : binary_string_types ("VARBINARY".toList ++ ('(' :: (renderNat n ++ [')'])))
      = some ([], DataType.Varbinary (some n)) := by
    rw [binary_string_types,
      palt_none (pmap_none (preceded_none
        (tag_no_case_append_none _ "VARBINARY".toList (by decide) _))),
      palt_none (pmap_none (preceded_none
        (tag_no_case_append_none _ "VARBINARY".toList (by decide) _))),
      palt_some (nat_paren_alt_eval "VARBINARY".toList n hn DataType.Varbinary)]
  rw [data_type,
    palt_none (character_large_object_types_append_none "VARBINARY".toList
      (by decide) (by decide) (by decide) _),
    palt_none (character_string_append_none "VARBINARY".toList
      (by decide) (by decide) (by decide) (by decide) (by decide) _),
    palt_some hg]

theorem dt_binary_varying_some (n : Nat) (hn : n < 4294967296) :
    data_type ("BINARY VARYING".toList ++ ('(' :: (renderNat n ++ [')'])))
      = some ([], DataType.BinaryVarying (some n)) := by
  have hg : binary_string_types ("BINARY VARYING".toList ++ ('(' :: (renderNat n ++ [')'])))
      = some ([], DataType.BinaryVarying (some n)) := by
    rw [binary_string_types,
      palt_none (pmap_none (preceded_none
        (tag_no_case_append_none _ "BINARY VARYING".toList (by decide) _))),
      palt_none (pmap_none (preceded_none
        (tag_no_case_append_none _ "BINARY VARYING".toList (by decide) _))),
      palt_none (pmap_none (preceded_none
        (tag_no_case_append_none _ "BINARY VARYING".toList (by decide) _))),
      palt_some (nat_paren_alt_eval "BINARY VARYING".toList n hn DataType.BinaryVarying)]
  rw [data_type,
    palt_none (character_large_object_types_append_none "BINARY VARYING".toList
      (by decide) (by decide) (by decide) _),
    palt_none (character_string_append_none "BINARY VARYING".toList
      (by decide) (by decide) (by decide) (by decide) (by decide) _),
    palt_some hg]

theorem dt_binary_some (n : Nat) (hn : n < 4294967296) :
    data_type ("BINARY".toList ++ ('(' :: (renderNat n ++ [')'])))
      = some ([], DataType.Binary (some n)) := by
  have hg : binary_string_types ("BINARY".toList ++ ('(' :: (renderNat n ++ [')'])))
      = some ([], DataType.Binary (some n)) := by
    rw [binary_string_types,
      palt_none (pmap_none (preceded_none
        (eval_cons_bridge (tag_no_case_append_none "BINARY LARGE OBJECT".toList
          ("BINARY".toList ++ ['(']) (by decide) _)))),
      palt_none (pmap_none (preceded_none
        (tag_no_case_append_none _ "BINARY".toList (by decide) _))),
      palt_none (pmap_none (preceded_none
        (tag_no_case_append_none _ "BINARY".toList (by decide) _))),
      palt_none (pmap_none (preceded_none
        (eval_cons_bridge (tag_no_case_append_none "BINARY VARYING".toList
          ("BINARY".toList ++ ['(']) (by decide) _))))]
    exact nat_paren_alt_eval "BINARY".toList n hn DataType.Binary
  rw [data_type,
    palt_none (eval_cons_bridge (character_large_object_types_append_none
      ("BINARY".toList ++ ['(']) (by decide) (by decide) (by decide) _)),
    palt_none (eval_cons_bridge (character_string_append_none
      ("BINARY".toList ++ ['(']) (by decide) (by decide) (by decide) (by decide)
      (by decide) _)),
    palt_some hg]

theorem dt_numeric_eni (e : ExactNumberInfo) (h : wfExactNumberInfo e = true) :
    data_type ("NUMERIC".toList ++ renderExactNumberInfo e)
      = some ([], DataType.Numeric e) := by
  have hg : exact_numeric_type ("NUMERIC".toList ++ renderExactNumberInfo e)
      = some ([], DataType.Numeric e) := by
    rw [exact_numeric_type,
      palt_none (pmap_none (preceded_none
        (tag_no_case_append_none _ "NUMERIC".toList (by decide) _))),
      palt_some (eni_alt_eval "NUMERIC".toList e h DataType.Numeric)]
  rw [data_type,
    palt_none (character_large_object_types_append_none "NUMERIC".toList
      (by decide) (by decide) (by decide) _),
    palt_none (character_string_append_none "NUMERIC".toList
      (by decide) (by decide) (by decide) (by decide) (by decide) _),
    palt_none (binary_string_types_append_none "NUMERIC".toList
      (by decide) (by decide) (by decide) (by decide) (by decide) _),
    palt_none (decimal_floating_point_type_append_none "NUMERIC".toList (by decide) _),
    palt_some hg]

theorem dt_decimal_eni (e : ExactNumberInfo) (h : wfExactNumberInfo e = true) :
    data_type ("DECIMAL".toList ++ renderExactNumberInfo e)
      = some ([], DataType.Decimal e) := by
  have hg : exact_numeric_type ("DECIMAL".toList ++ renderExactNumberInfo e)
      = some ([], DataType.Decimal e) := by
    rw [exact_numeric_type,
      palt_some (eni_alt_eval "DECIMAL".toList e h DataType.Decimal)]
  rw [data_type,
    palt_none (character_large_object_types_append_none "DECIMAL".toList
      (by decide) (by decide) (by decide) _),
    palt_none (character_string_append_none "DECIMAL".toList
      (by decide) (by decide) (by decide) (by decide) (by decide) _),
    palt_none (binary_string_types_append_none "DECIMAL".toList
      (by decide) (by decide) (by decide) (by decide) (by decide) _),
    palt_none (decimal_floating_point_type_append_none "DECIMAL".toList (by decide) _),
    palt_some hg]

theorem dt_dec_eni (e : ExactNumberInfo) (h : wfExactNumberInfo e = true) :
    data_type ("DEC".toList ++ renderExactNumberInfo e)
      = some ([], DataType.Dec e) := by
  have key : ∀ X : List Char,
      exact_number_info ('(' :: X) = some ([], e) →
      data_type ("DEC".toList ++ ('(' :: X)) = some ([], DataType.Dec e) := by
    intro X hX
    have hg : exact_numeric_type ("DEC".toList ++ ('(' :: X))
        = some ([], DataType.Dec e) := by
      rw [exact_numeric_type,
        palt_none (pmap_none (preceded_none
          (eval_cons_bridge (tag_no_case_append_none "DECIMAL".toList
            ("DEC".toList ++ ['(']) (by decide) _)))),
        palt_none (pmap_none (preceded_none
          (tag_no_case_append_none _ "DEC".toList (by decide) _))),
        palt_some (pmap_some (Eq.trans
          (preceded_step (tag_no_case_self "DEC".toList ('(' :: X)))
          hX))]
    rw [data_type,
      palt_none (character_large_object_types_append_none "DEC".toList
        (by decide) (by decide) (by decide) _),
      palt_none (character_string_append_none "DEC".toList
        (by decide) (by decide) (by decide) (by decide) (by decide) _),
      palt_none (binary_string_types_append_none "DEC".toList
        (by decide) (by decide) (by decide) (by decide) (by decide) _),
      palt_none (eval_cons_bridge (decimal_floating_point_type_append_none
        ("DEC".toList ++ ['(']) (by decide) _)),
      palt_some hg]
  cases e with
  | None => decide
  | Precision p =>
    exact key _ (exact_number_info_render (ExactNumberInfo.Precision p) h)
  | PrecisionAndScale p q =>
    exact key _ (exact_number_info_render (ExactNumberInfo.PrecisionAndScale p q) h)

theorem dt_decfloat_some (n : Nat) (hn : n < 4294967296) :
    data_type ("DECFLOAT".toList ++ ('(' :: (renderNat n ++ [')'])))
      = some ([], DataType.DecFloat (some n)) := by
  rw [data_type,
    palt_none (character_large_object_types_append_none "DECFLOAT".toList
      (by decide) (by decide) (by decide) _),
    palt_none (character_string_append_none "DECFLOAT".toList
      (by decide) (by decide) (by decide) (by decide) (by decide) _),
    palt_none (binary_string_types_append_none "DECFLOAT".toList
      (by decide) (by decide) (by decide) (by decide) (by decide) _),
    palt_some (show decimal_floating_point_type
        ("DECFLOAT".toList ++ ('(' :: (renderNat n ++ [')'])))
        = some ([], DataType.DecFloat (some n))
      from nat_paren_alt_eval "DECFLOAT".toList n hn DataType.DecFloat)]

theorem dt_time_some (n : Nat) (hn : n < 4294967296) (tz : WithOrWithoutTimeZone) :
    data_type ("TIME".toList ++ ('(' :: (renderNat n ++ (')' :: renderTzTail tz))))
      = some ([], DataType.Time (some n) tz) := by
  have hdt : datetime_type ("TIME".toList ++ ('(' :: (renderNat n ++ (')' :: renderTzTail tz))))
      = some ([], DataType.Time (some n) tz) := by
    rw [datetime_type,
      palt_none (pmap_none (tag_no_case_append_none _ "TIME".toList (by decide) _)),
      palt_none (pmap_none (preceded_none
        (eval_cons_bridge (tag_no_case_append_none "TIMESTAMP".toList
          ("TIME".toList ++ ['(']) (by decide) _))))]
    exact pmap_some (Eq.trans
      (preceded_step (tag_no_case_self "TIME".toList _)) (tz_pair_eval n hn tz))
  rw [data_type,
    palt_none (character_large_object_types_append_none "TIME".toList
      (by decide) (by decide) (by decide) _),
    palt_none (character_string_append_none "TIME".toList
      (by decide) (by decide) (by decide) (by decide) (by decide) _),
    palt_none (binary_string_types_append_none "TIME".toList
      (by decide) (by decide) (by decide) (by decide) (by decide) _),
    palt_none (decimal_floating_point_type_append_none "TIME".toList (by decide) _),
    palt_none (exact_numeric_type_append_none "TIME".toList
      (by decide) (by decide) (by decide) (by decide) (by decide) (by decide) (by decide) _),
    palt_none (approximate_numeric_type_append_none "TIME".toList
      (by decide) (by decide) (by decide) _),
    palt_none (boolean_type_append_none "TIME".toList (by decide) _),
    hdt]

theorem dt_timestamp_some (n : Nat) (hn : n < 4294967296) (tz : WithOrWithoutTimeZone) :
    data_type ("TIMESTAMP".toList ++ ('(' :: (renderNat n ++ (')' :: renderTzTail tz))))
      = some ([], DataType.Timestamp (some n) tz) := by
  have hdt : datetime_type
      ("TIMESTAMP".toList ++ ('(' :: (renderNat n ++ (')' :: renderTzTail tz))))
      = some ([], DataType.Timestamp (some n) tz) := by
    rw [datetime_type,
      palt_none (pmap_none (tag_no_case_append_none _ "TIMESTAMP".toList (by decide) _)),
      palt_some (pmap_some (Eq.trans
        (preceded_step (tag_no_case_self "TIMESTAMP".toList _)) (tz_pair_eval n hn tz)))]
  rw [data_type,
    palt_none (character_large_object_types_append_none "TIMESTAMP".toList
      (by decide) (by decide) (by decide) _),
    palt_none (character_string_append_none "TIMESTAMP".toList
      (by decide) (by decide) (by decide) (by decide) (by decide) _),
    palt_none (binary_string_types_append_none "TIMESTAMP".toList
      (by decide) (by decide) (by decide) (by decide) (by decide) _),
    palt_none (decimal_floating_point_type_append_none "TIMESTAMP".toList (by decide) _),
    palt_none (exact_numeric_type_append_none "TIMESTAMP".toList
      (by decide) (by decide) (by decide) (by decide) (by decide) (by decide) (by decide) _),
    palt_none (approximate_numeric_type_append_none "TIMESTAMP".toList
      (by decide) (by decide) (by decide) _),
    palt_none (boolean_type_append_none "TIMESTAMP".toList (by decide) _),
    hdt]

/-- Parsing the canonical rendering of any well-formed `DataType` value
yields that value back with no remainder. -/
theorem data_type_render_roundtrip (v : DataType) (h : wfDataType v = true) :
    data_type (renderDataType v) = some ([], v) := by
  cases v with
  | Character l =>
    cases l with
    | none => decide
    | some l => exact dt_character_some l h
  | Char l =>
    cases l with
    | none => decide
    | some l => exact dt_char_some l h
  | CharacterVarying l =>
    cases l with
    | none => decide
    | some l => exact dt_character_varying_some l h
  | CharVarying l =>
    cases l with
    | none => decide
    | some l => exact dt_char_varying_some l h
  | Varchar l =>
    cases l with
    | none => decide
    | some l => exact dt_varchar_some l h
  | CharacterLargeObject l =>
    cases l with
    | none => decide
    | some l => exact dt_character_large_object_some l h
  | CharLargeObject l =>
    cases l with
    | none => decide
    | some l => exact dt_char_large_object_some l h
  | Clob l =>
    cases l with
    | none => decide
    | some l => exact dt_clob_some l h
  | BinaryLargeObject l =>
    cases l with
    | none => decide
    | some l => exact dt_binary_large_object_some l h
  | Blob l =>
    cases l with
    | none => decide
    | some l => exact dt_blob_some l h
  | Varbinary p =>
    cases p with
    | none => decide
    | some n => exact dt_varbinary_some n (by simpa [wfDataType, Option.all, u32Bound] using h)
  | BinaryVarying p =>
    cases p with
    | none => decide
    | some n =>
      exact dt_binary_varying_some n (by simpa [wfDataType, Option.all, u32Bound] using h)
  | Binary p =>
    cases p with
    | none => decide
    | some n => exact dt_binary_some n (by simpa [wfDataType, Option.all, u32Bound] using h)
  | Numeric e => exact dt_numeric_eni e h
  | Decimal e => exact dt_decimal_eni e h
  | Dec e => exact dt_dec_eni e h
  | Smallint => decide
  | Integer => decide
  | Int => decide
  | Bigint => decide
  | Float => decide
  | Real => decide
  | DoublePrecision => decide
  | DecFloat p =>
    cases p with
    | none => decide
    | some n => exact dt_decfloat_some n (by simpa [wfDataType, Option.all, u32Bound] using h)
  | Boolean => decide
  | Date => decide
  | Time p tz =>
    cases p with
    | none => cases tz <;> decide
    | some n =>
      have hn : n < 4294967296 := by simpa [wfDataType, u32Bound] using h
      have hshape : renderDataType (DataType.Time (some n) tz)
          = "TIME".toList ++ ('(' :: (renderNat n ++ (')' :: renderTzTail tz))) := by
        simp [renderDataType, renderOptNatParen, List.append_assoc]
      rw [hshape]
      exact dt_time_some n hn tz
  | Timestamp p tz =>
    cases p with
    | none => cases tz <;> decide
    | some n =>
      have hn : n < 4294967296 := by simpa [wfDataType, u32Bound] using h
      have hshape : renderDataType (DataType.Timestamp (some n) tz)
          = "TIMESTAMP".toList ++ ('(' :: (renderNat n ++ (')' :: renderTzTail tz))) := by
        simp [renderDataType, renderOptNatParen, List.append_assoc]
      rw [hshape]
      exact dt_timestamp_some n hn tz

theorem palt_inv {α : Type} {p q : P α} {i : List Char} {o : List Char × α}
    (h : palt p q i = some o) : p i = some o ∨ q i = some o := by
  unfold palt at h
  split at h
  · exact Or.inr h
  · rename_i ra heq
    exact Or.inl (heq.trans h)

theorem pmap_inv {α β : Type} {f : α → β} {p : P α} {i : List Char}
    {r : List Char} {b : β} (h : pmap f p i = some (r, b)) :
    ∃ a, p i = some (r, a) ∧ b = f a := by
  unfold pmap at h
  split at h
  · exact absurd h (by simp)
  · rename_i r1 a heq
    simp only [Option.some.injEq, Prod.mk.injEq] at h
    exact ⟨a, by rw [heq, h.1], h.2.symm⟩

theorem preceded_inv {α β : Type} {p : P α} {q : P β} {i : List Char}
    {o : List Char × β} (h : preceded p q i = some o) :
    ∃ r1 a, p i = some (r1, a) ∧ q r1 = some o := by
  unfold preceded at h
  split at h
  · exact absurd h (by simp)
  · rename_i r1 a heq
    exact ⟨r1, a, heq, h⟩

theorem terminated_inv {α β : Type} {p : P α} {q : P β} {i : List Char}
    {r : List Char} {a : α} (h : terminated p q i = some (r, a)) :
    ∃ r1, p i = some (r1, a) := by
  unfold terminated at h
  split at h
  · exact absurd h (by simp)
  · rename_i r1 a1 heq
    split at h
    · exact absurd h (by simp)
    · simp only [Option.some.injEq, Prod.mk.injEq] at h
      exact ⟨r1, by rw [heq, h.2]⟩

theorem ppair_inv {α β : Type} {p : P α} {q : P β} {i : List Char}
    {r : List Char} {ab : α × β} (h : ppair p q i = some (r, ab)) :
    ∃ r1, p i = some (r1, ab.1) ∧ q r1 = some (r, ab.2) := by
  unfold ppair at h
  split at h
  · exact absurd h (by simp)
  · rename_i r1 a1 heq
    split at h
    · exact absurd h (by simp)
    · rename_i r2 b heq2
      simp only [Option.some.injEq, Prod.mk.injEq] at h
      obtain ⟨h1, h2⟩ := h
      subst h1
      rw [← h2]
      exact ⟨r1, heq, heq2⟩

theorem popt_inv {α : Type} {p : P α} {i r : List Char} {a? : Option α}
    (h : popt p i = some (r, a?)) :
    a? = none ∨ ∃ a, a? = some a ∧ p i = some (r, a) := by
  unfold popt at h
  split at h
  · simp only [Option.some.injEq, Prod.mk.injEq] at h
    exact Or.inl h.2.symm
  · rename_i r1 a heq
    simp only [Option.some.injEq, Prod.mk.injEq] at h
    exact Or.inr ⟨a, h.2.symm, by rw [heq, h.1]⟩

theorem u32_lt {i r : List Char} {n : Nat} (h : u32 i = some (r, n)) :
    n < 4294967296 := by
  unfold u32 at h
  split at h
  · exact absurd h (by simp)
  · split at h
    · rename_i hlt
      simp only [Option.some.injEq, Prod.mk.injEq] at h
      omega
    · exact absurd h (by simp)

theorem paren_u32_lt {i r : List Char} {n : Nat}
    (h : paren_delimited u32 i = some (r, n)) : n < 4294967296 := by
  unfold paren_delimited delimitedP at h
  obtain ⟨r1, _, _, h2⟩ := preceded_inv h
  obtain ⟨r2, h3⟩ := terminated_inv h2
  exact u32_lt h3

theorem opt_character_length_wf {i r : List Char} {l? : Option CharacterLength}
    (h : opt_character_length i = some (r, l?)) : l?.all wfCharLen = true := by
  unfold opt_character_length at h
  obtain ⟨o, ho, hb⟩ := pmap_inv h
  rcases popt_inv ho with hnone | ⟨a, ha, hp⟩
  · subst hnone
    simp at hb
    subst hb
    rfl
  · subst ha
    obtain ⟨len, units⟩ := a
    simp only [] at hb
    subst hb
    unfold paren_delimited delimitedP at hp
    obtain ⟨r1, _, _, h2⟩ := preceded_inv hp
    obtain ⟨r2, h3⟩ := terminated_inv h2
    obtain ⟨r3, h4, _⟩ := ppair_inv h3
    simp only [Option.all, wfCharLen, u32Bound]
    simpa using u32_lt h4

theorem large_object_length_wf {i r : List Char} {l : LargeObjectLength}
    (h : large_object_length i = some (r, l)) : u32Bound l.length = true := by
  unfold large_object_length at h
  obtain ⟨o, ho, hb⟩ := pmap_inv h
  obtain ⟨len, m⟩ := o
  simp only [] at hb
  subst hb
  obtain ⟨r1, h4, _⟩ := ppair_inv ho
  simp only [u32Bound]
  simpa using u32_lt h4

theorem character_large_object_length_wf {i r : List Char}
    {l : CharacterLargeObjectLength}
    (h : character_large_object_length i = some (r, l)) : wfClobLen l = true := by
  unfold character_large_object_length at h
  obtain ⟨o, ho, hb⟩ := pmap_inv h
  obtain ⟨lob, u⟩ := o
  simp only [] at hb
  subst hb
  obtain ⟨r1, h4, _⟩ := ppair_inv ho
  exact large_object_length_wf h4

theorem popt_paren_clob_wf {i r : List Char} {l? : Option CharacterLargeObjectLength}
    (h : popt (paren_delimited character_large_object_length) i = some (r, l?)) :
    l?.all wfClobLen = true := by
  rcases popt_inv h with hnone | ⟨a, ha, hp⟩
  · subst hnone; rfl
  · subst ha
    unfold paren_delimited delimitedP at hp
    obtain ⟨r1, _, _, h2⟩ := preceded_inv hp
    obtain ⟨r2, h3⟩ := terminated_inv h2
    simpa [Option.all] using character_large_object_length_wf h3

theorem exact_number_info_wf {i r : List Char} {e : ExactNumberInfo}
    (h : exact_number_info i = some (r, e)) : wfExactNumberInfo e = true := by
  unfold exact_number_info at h
  rcases palt_inv h with h1 | h1
  · obtain ⟨o, ho, hb⟩ := pmap_inv h1
    obtain ⟨p, sc⟩ := o
    simp only [] at hb
    subst hb
    unfold paren_delimited delimitedP at ho
    obtain ⟨r1, _, _, h2⟩ := preceded_inv ho
    obtain ⟨r2, h3⟩ := terminated_inv h2
    unfold separated_pair at h3
    obtain ⟨r3, h4, h5⟩ := ppair_inv h3
    obtain ⟨r4, h6⟩ := terminated_inv h4
    simp only [wfExactNumberInfo, u32Bound, Bool.and_eq_true]
    constructor
    · simpa using u32_lt h6
    · simpa using u32_lt h5
  rcases palt_inv h1 with h2 | h2
  · obtain ⟨p, ho, hb⟩ := pmap_inv h2
    subst hb
    simp only [wfExactNumberInfo, u32Bound]
    simpa using paren_u32_lt ho
  · obtain ⟨o, _, hb⟩ := pmap_inv h2
    subst hb
    rfl

theorem character_string_wf {i : List Char} {r : List Char} {v : DataType}
    (h : character_string i = some (r, v)) : wfDataType v = true := by
  unfold character_string at h
  rcases palt_inv h with h1 | h
  · obtain ⟨a, ha, hb⟩ := pmap_inv h1
    subst hb
    obtain ⟨_, _, _, h2⟩ := preceded_inv ha
    exact opt_character_length_wf h2
  rcases palt_inv h with h1 | h
  · obtain ⟨a, ha, hb⟩ := pmap_inv h1
    subst hb
    obtain ⟨_, _, _, h2⟩ := preceded_inv ha
    exact opt_character_length_wf h2
  rcases palt_inv h with h1 | h
  · obtain ⟨a, ha, hb⟩ := pmap_inv h1
    subst hb
    obtain ⟨_, _, _, h2⟩ := preceded_inv ha
    exact opt_character_length_wf h2
  rcases palt_inv h with h1 | h1
  · obtain ⟨a, ha, hb⟩ := pmap_inv h1
    subst hb
    obtain ⟨_, _, _, h2⟩ := preceded_inv ha
    exact opt_character_length_wf h2
  · obtain ⟨a, ha, hb⟩ := pmap_inv h1
    subst hb
    obtain ⟨_, _, _, h2⟩ := preceded_inv ha
    exact opt_character_length_wf h2

theorem character_large_object_types_wf {i : List Char} {r : List Char} {v : DataType}
    (h : character_large_object_types i = some (r, v)) : wfDataType v = true := by
  unfold character_large_object_types at h
  rcases palt_inv h with h1 | h
  · obtain ⟨a, ha, hb⟩ := pmap_inv h1
    subst hb
    obtain ⟨_, _, _, h2⟩ := preceded_inv ha
    exact popt_paren_clob_wf h2
  rcases palt_inv h with h1 | h1
  · obtain ⟨a, ha, hb⟩ := pmap_inv h1
    subst hb
    obtain ⟨_, _, _, h2⟩ := preceded_inv ha
    exact popt_paren_clob_wf h2
  · obtain ⟨a, ha, hb⟩ := pmap_inv h1
    subst hb
    obtain ⟨_, _, _, h2⟩ := preceded_inv ha
    exact popt_paren_clob_wf h2

theorem popt_ws_paren_lob_wf {i r : List Char} {l? : Option LargeObjectLength}
    (h : popt (preceded_ws0 (paren_delimited large_object_length)) i = some (r, l?)) :
    l?.all wfLob = true := by
  rcases popt_inv h with hnone | ⟨a, ha, hp⟩
  · subst hnone; rfl
  · subst ha
    unfold preceded_ws0 at hp
    obtain ⟨_, _, _, h1⟩ := preceded_inv hp
    unfold paren_delimited delimitedP at h1
    obtain ⟨_, _, _, h2⟩ := preceded_inv h1
    obtain ⟨_, h3⟩ := terminated_inv h2
    simpa [Option.all, wfLob] using large_object_length_wf h3

theorem popt_ws_paren_u32_wf {i r : List Char} {n? : Option Nat}
    (h : popt (preceded_ws0 (paren_delimited u32)) i = some (r, n?)) :
    n?.all u32Bound = true := by
  rcases popt_inv h with hnone | ⟨a, ha, hp⟩
  · subst hnone; rfl
  · subst ha
    unfold preceded_ws0 at hp
    obtain ⟨_, _, _, h1⟩ := preceded_inv hp
    simp only [Option.all, u32Bound]
    simpa using paren_u32_lt h1

theorem binary_string_types_wf {i : List Char} {r : List Char} {v : DataType}
    (h : binary_string_types i = some (r, v)) : wfDataType v = true := by
  unfold binary_string_types at h
  rcases palt_inv h with h1 | h
  · obtain ⟨a, ha, hb⟩ := pmap_inv h1
    subst hb
    obtain ⟨_, _, _, h2⟩ := preceded_inv ha
    exact popt_ws_paren_lob_wf h2
  rcases palt_inv h with h1 | h
  · obtain ⟨a, ha, hb⟩ := pmap_inv h1
    subst hb
    obtain ⟨_, _, _, h2⟩ := preceded_inv ha
    exact popt_ws_paren_lob_wf h2
  rcases palt_inv h with h1 | h
  · obtain ⟨a, ha, hb⟩ := pmap_inv h1
    subst hb
    obtain ⟨_, _, _, h2⟩ := preceded_inv ha
    exact popt_ws_paren_u32_wf h2
  rcases palt_inv h with h1 | h1
  · obtain ⟨a, ha, hb⟩ := pmap_inv h1
    subst hb
    obtain ⟨_, _, _, h2⟩ := preceded_inv ha
    exact popt_ws_paren_u32_wf h2
  · obtain ⟨a, ha, hb⟩ := pmap_inv h1
    subst hb
    obtain ⟨_, _, _, h2⟩ := preceded_inv ha
    exact popt_ws_paren_u32_wf h2

theorem exact_numeric_type_wf {i : List Char} {r : List Char} {v : DataType}
    (h : exact_numeric_type i = some (r, v)) : wfDataType v = true := by
  unfold exact_numeric_type at h
  rcases palt_inv h with h1 | h
  · obtain ⟨a, ha, hb⟩ := pmap_inv h1
    subst hb
    obtain ⟨_, _, _, h2⟩ := preceded_inv ha
    exact exact_number_info_wf h2
  rcases palt_inv h with h1 | h
  · obtain ⟨a, ha, hb⟩ := pmap_inv h1
    subst hb
    obtain ⟨_, _, _, h2⟩ := preceded_inv ha
    exact exact_number_info_wf h2
  rcases palt_inv h with h1 | h
  · obtain ⟨a, ha, hb⟩ := pmap_inv h1
    subst hb
    obtain ⟨_, _, _, h2⟩ := preceded_inv ha
    exact exact_number_info_wf h2
  rcases palt_inv h with h1 | h
  · obtain ⟨a, _, hb⟩ := pmap_inv h1
    subst hb
    rfl
  rcases palt_inv h with h1 | h
  · obtain ⟨a, _, hb⟩ := pmap_inv h1
    subst hb
    rfl
  rcases palt_inv h with h1 | h1
  · obtain ⟨a, _, hb⟩ := pmap_inv h1
    subst hb
    rfl
  · obtain ⟨a, _, hb⟩ := pmap_inv h1
    subst hb
    rfl

theorem approximate_numeric_type_wf {i : List Char} {r : List Char} {v : DataType}
    (h : approximate_numeric_type i = some (r, v)) : wfDataType v = true := by
  unfold approximate_numeric_type at h
  rcases palt_inv h with h1 | h
  · obtain ⟨a, _, hb⟩ := pmap_inv h1
    subst hb
    rfl
  rcases palt_inv h with h1 | h1
  · obtain ⟨a, _, hb⟩ := pmap_inv h1
    subst hb
    rfl
  · obtain ⟨a, _, hb⟩ := pmap_inv h1
    subst hb
    rfl

theorem decimal_floating_point_type_wf {i : List Char} {r : List Char} {v : DataType}
    (h : decimal_floating_point_type i = some (r, v)) : wfDataType v = true := by
  unfold decimal_floating_point_type at h
  obtain ⟨a, ha, hb⟩ := pmap_inv h
  subst hb
  obtain ⟨_, _, _, h2⟩ := preceded_inv ha
  exact popt_ws_paren_u32_wf h2

theorem boolean_type_wf {i : List Char} {r : List Char} {v : DataType}
    (h : boolean_type i = some (r, v)) : wfDataType v = true := by
  unfold boolean_type at h
  obtain ⟨a, _, hb⟩ := pmap_inv h
  subst hb
  rfl

theorem popt_paren_u32_wf {i r : List Char} {n? : Option Nat}
    (h : popt (paren_delimited u32) i = some (r, n?)) : n?.all u32Bound = true := by
  rcases popt_inv h with hnone | ⟨a, ha, hp⟩
  · subst hnone; rfl
  · subst ha
    simp only [Option.all, u32Bound]
    simpa using paren_u32_lt hp

theorem datetime_type_wf {i : List Char} {r : List Char} {v : DataType}
    (h : datetime_type i = some (r, v)) : wfDataType v = true := by
  unfold datetime_type at h
  rcases palt_inv h with h1 | h
  · obtain ⟨a, _, hb⟩ := pmap_inv h1
    subst hb
    rfl
  rcases palt_inv h with h1 | h1
  · obtain ⟨a, ha, hb⟩ := pmap_inv h1
    obtain ⟨p, tz⟩ := a
    subst hb
    obtain ⟨_, _, _, h2⟩ := preceded_inv ha
    obtain ⟨_, h3, _⟩ := ppair_inv h2
    exact popt_paren_u32_wf h3
  · obtain ⟨a, ha, hb⟩ := pmap_inv h1
    obtain ⟨p, tz⟩ := a
    subst hb
    obtain ⟨_, _, _, h2⟩ := preceded_inv ha
    obtain ⟨_, h3, _⟩ := ppair_inv h2
    exact popt_paren_u32_wf h3

/-- Every value the `data_type` parser produces is well-formed: its
numeric payloads fit in 32 bits. -/
theorem data_type_wf {i : List Char} {r : List Char} {v : DataType}
    (h : data_type i = some (r, v)) : wfDataType v = true := by
  unfold data_type at h
  rcases palt_inv h with h1 | h
  · exact character_large_object_types_wf h1
  rcases palt_inv h with h1 | h
  · exact character_string_wf h1
  rcases palt_inv h with h1 | h
  · exact binary_string_types_wf h1
  rcases palt_inv h with h1 | h
  · exact decimal_floating_point_type_wf h1
  rcases palt_inv h with h1 | h
  · exact exact_numeric_type_wf h1
  rcases palt_inv h with h1 | h
  · exact approximate_numeric_type_wf h1
  rcases palt_inv h with h1 | h1
  · exact boolean_type_wf h1
  · exact datetime_type_wf h1

/-- Embedded `common::QuoteStyle`. -/
inductive QuoteStyle : Type
  | None : QuoteStyle
  | DoubleQuote : QuoteStyle
deriving DecidableEq

/-- Embedded `common::Ident`: an identifier value with its quoting style. -/
structure Ident : Type where
  value : List Char
  quote_style : QuoteStyle
deriving DecidableEq

/-- Embedded `Ident::new`. -/
def Ident.new (bytes : List Char) : Ident := ⟨bytes, QuoteStyle.None⟩

/-- Embedded `Ident::new_quoted`. -/
def Ident.new_quoted (bytes : List Char) (qs : QuoteStyle) : Ident := ⟨bytes, qs⟩

/-- Embedded `common::is_sql_identifier`: ASCII alphanumeric, underscore or at
sign. -/
def is_sql_identifier (c : Char) : Bool :=
  decide ((48 ≤ c.toNat ∧ c.toNat ≤ 57) ∨ (65 ≤ c.toNat ∧ c.toNat ≤ 90)
    ∨ (97 ≤ c.toNat ∧ c.toNat ≤ 122)) || c = '_' || c = '@'

/-- The unquoted branch of `common::parsers::ident`:
`permutation((peek(alpha1), take_while1(is_sql_identifier)))` — nom tries
the two parsers in each round in order, so when the peek fails first the
run is consumed and the peek is retried on the remainder. -/
def ident_unquoted : P Ident := fun i =>
  match ppeek alpha1 i with
  | some _ => pmap (fun bytes => Ident.new bytes) (take_while1 is_sql_identifier) i
  | none =>
    match take_while1 is_sql_identifier i with
    | none => none
    | some (r, bytes) =>
      match ppeek alpha1 r with
      | some _ => some (r, Ident.new bytes)
      | none => none

/-- Embedded `common::parsers::ident`: a double-quoted identifier or an unquoted
one (which must start with a letter). There is no leading-whitespace
stripping in the code. -/
def ident : P Ident :=
  palt
    (pmap (fun bytes => Ident.new_quoted bytes QuoteStyle.DoubleQuote)
      (delimitedP (tag ['"']) (take_while1 is_sql_identifier) (tag ['"'])))
    ident_unquoted

/-- Embedded `ansi::ast::common::SchemaName`. -/
structure SchemaName : Type where
  name : Ident
  opt_catalog_name : Option Ident
deriving DecidableEq

/-- Embedded `ansi::ast::common::LocalQualifier` (the fixed `MODULE` marker). -/
inductive LocalQualifier : Type
  | Module : LocalQualifier
deriving DecidableEq

/-- Embedded `ansi::ast::common::LocalOrSchemaQualifier`. -/
inductive LocalOrSchemaQualifier : Type
  | Schema : SchemaName → LocalOrSchemaQualifier
  | LocalQualifier : LocalQualifier → LocalOrSchemaQualifier
deriving DecidableEq

/-- Embedded `ansi::ast::common::TableName`. -/
structure TableName : Type where
  name : Ident
  opt_local_or_schema : Option LocalOrSchemaQualifier
deriving DecidableEq

/-- Embedded `ansi::ast::common::ColumnDefinition`. -/
structure ColumnDefinition : Type where
  column_name : Ident
  opt_data_type : Option DataType
deriving DecidableEq

/-- Embedded `ansi::ast::common::DropBehavior`. -/
inductive DropBehavior : Type
  | Cascade : DropBehavior
  | Restrict : DropBehavior
deriving DecidableEq

/-- Embedded `schema_name` from `ansi::parser::common`: `ident '.' ident` as
catalog-qualified, else a single `ident`. -/
def schema_name : P SchemaName :=
  palt
    (pmap (fun (catalog, schema) => SchemaName.mk schema (some catalog))
      (ppair (terminated ident period) ident))
    (pmap (fun schema => SchemaName.mk schema none) ident)

/-- Embedded `local_qualifier` from `ansi::parser::common`. -/
def local_qualifier : P LocalQualifier :=
  pmap (fun _ => LocalQualifier.Module) (tag_no_case "MODULE".toList)

/-- Embedded `schema_for_qualified_table_name` from `ansi::parser::common`:
consume one or two qualifier identifiers, committing only after a
non-consuming lookahead sees a further `.identifier`. -/
def schema_for_qualified_table_name : P SchemaName :=
  palt
    (pmap (fun (catalog, schema) => SchemaName.mk schema (some catalog))
      (terminated (ppair (terminated ident period) ident)
        (ppeek (ppair period ident))))
    (pmap (fun schema => SchemaName.mk schema none)
      (terminated ident (ppeek (ppair period ident))))

/-- Embedded `local_or_schema_qualifier` from `ansi::parser::common`. -/
def local_or_schema_qualifier : P LocalOrSchemaQualifier :=
  palt (pmap LocalOrSchemaQualifier.LocalQualifier local_qualifier)
    (pmap LocalOrSchemaQualifier.Schema schema_for_qualified_table_name)

/-- Embedded `table_name` from `ansi::parser::common`: optional qualifier and
period, then the table identifier. -/
def table_name : P TableName :=
  pmap (fun (q, name) => TableName.mk name q)
    (ppair (popt (terminated local_or_schema_qualifier period)) ident)

/-- Embedded `column_definition` from `ansi::parser::common`: identifier plus
optional whitespace-separated data type. -/
def column_definition : P ColumnDefinition :=
  pmap (fun (name, dt) => ColumnDefinition.mk name dt)
    (ppair ident (popt (preceded multispace1 data_type)))

/-- Embedded `drop_behavior` from `ansi::parser::common`. -/
def drop_behavior : P DropBehavior :=
  palt (pmap (fun _ => DropBehavior.Cascade) (tag_no_case "CASCADE".toList))
    (pmap (fun _ => DropBehavior.Restrict) (tag_no_case "RESTRICT".toList))

/-- Embedded `ansi::ast::drop_table::DropTable`. -/
structure DropTable : Type where
  table_name : TableName
  drop_behavior : DropBehavior
deriving DecidableEq

/-- Embedded `ansi::ast::drop_schema::DropSchema`. -/
structure DropSchema : Type where
  schema_name : SchemaName
  drop_behavior : DropBehavior
deriving DecidableEq

/-- Embedded `ansi::ast::create_schema::SchemaNameClause`. -/
inductive SchemaNameClause : Type
  | Simple : SchemaName → SchemaNameClause
  | Authorization : Ident → SchemaNameClause
  | NamedAuthorization : SchemaName → Ident → SchemaNameClause
deriving DecidableEq

/-- Embedded `ansi::ast::create_schema::CreateSchema`. -/
structure CreateSchema : Type where
  schema_name_clause : SchemaNameClause
deriving DecidableEq

/-- Embedded `TableScope` of the create-table statement. -/
inductive TableScope : Type
  | Global : TableScope
  | Local : TableScope
deriving DecidableEq

/-- Embedded `TableElement`: currently only a column definition. -/
inductive TableElement : Type
  | ColumnDefinition : ColumnDefinition → TableElement
deriving DecidableEq

/-- Embedded `TableElementList`: ordered list of table elements. -/
structure TableElementList : Type where
  element_list : List TableElement
deriving DecidableEq

/-- Embedded `TableContentsSource`: currently only a table-element list. -/
inductive TableContentsSource : Type
  | TableElementList : TableElementList → TableContentsSource
deriving DecidableEq

/-- Embedded `CreateTable` statement record. -/
structure CreateTable : Type where
  opt_table_scope : Option TableScope
  table_name : TableName
  table_contents_source : TableContentsSource
deriving DecidableEq

/-- Embedded `drop_table` from `ansi::parser::drop_table`. -/
def drop_table : P DropTable :=
  pmap (fun (tn, db) => DropTable.mk tn db)
    (delimitedP
      (preceded (tag_no_case "DROP".toList)
        (preceded multispace1
          (preceded (tag_no_case "TABLE".toList) multispace1)))
      (ppair (terminated table_name multispace1) drop_behavior)
      statement_terminator)

/-- Embedded `drop_schema` from `ansi::parser::drop_schema`. -/
def drop_schema : P DropSchema :=
  pmap (fun (sn, db) => DropSchema.mk sn db)
    (delimitedP
      (preceded (tag_no_case "DROP".toList)
        (preceded multispace1
          (preceded (tag_no_case "SCHEMA".toList) multispace1)))
      (ppair (terminated schema_name multispace1) drop_behavior)
      statement_terminator)

/-- Embedded `schema_name_clause` from `ansi::parser::create_schema`: most
specific alternative first. -/
def schema_name_clause : P SchemaNameClause :=
  palt
    (pmap (fun (sn, auth) => SchemaNameClause.NamedAuthorization sn auth)
      (ppair
        (terminated schema_name
          (preceded multispace1
            (terminated (tag_no_case "AUTHORIZATION".toList) multispace1)))
        ident))
    (palt
      (pmap SchemaNameClause.Authorization
        (preceded (terminated (tag_no_case "AUTHORIZATION".toList) multispace1) ident))
      (pmap SchemaNameClause.Simple schema_name))

/-- Embedded `create_schema` from `ansi::parser::create_schema`. -/
def create_schema : P CreateSchema :=
  pmap CreateSchema.mk
    (delimitedP
      (preceded (tag_no_case "CREATE".toList)
        (preceded multispace1
          (preceded (tag_no_case "SCHEMA".toList) multispace1)))
      schema_name_clause
      statement_terminator)

/-- Embedded `table_scope` from `ansi::parser::create_table`. -/
def table_scope : P TableScope :=
  palt (pmap (fun _ => TableScope.Global) (tag_no_case "GLOBAL TEMPORARY".toList))
    (pmap (fun _ => TableScope.Local) (tag_no_case "LOCAL TEMPORARY".toList))

/-- nom `separated_list1` body: loop while the separator, then the
element, both succeed; a separator that consumes nothing is an error.
Fuel bounds the iterations (nom loops unboundedly but every iteration of
this grammar consumes input, so input length bounds the rounds). -/
def separated_list1Aux {α β : Type} (sep : P β) (p : P α) :
    Nat → List Char → List α → Option (List Char × List α)
  | 0, _, _ => none
  | fuel + 1, i, acc =>
    match sep i with
    | none => some (i, acc.reverse)
    | some (i1, _) =>
      if i1 = i then none
      else
        match p i1 with
        | none => some (i, acc.reverse)
        | some (i2, a) => separated_list1Aux sep p fuel i2 (a :: acc)

/-- nom `separated_list1`: at least one element, separated by `sep`. -/
def separated_list1 {α β : Type} (sep : P β) (p : P α) : P (List α) := fun i =>
  match p i with
  | none => none
  | some (i1, a) => separated_list1Aux sep p (i1.length + 1) i1 [a]

/-- Embedded `table_element` from `ansi::parser::create_table`. -/
def table_element : P TableElement :=
  pmap TableElement.ColumnDefinition column_definition

/-- Embedded `table_element_list` from `ansi::parser::create_table`: a
parenthesized, comma-separated, nonempty list of table elements. -/
def table_element_list : P TableElementList :=
  pmap TableElementList.mk
    (delimitedP (terminated left_paren multispace0)
      (separated_list1 (delimitedP multispace0 comma multispace0) table_element)
      (preceded multispace0 right_paren))

/-- Embedded `table_contents_source` from `ansi::parser::create_table`. -/
def table_contents_source : P TableContentsSource :=
  pmap TableContentsSource.TableElementList table_element_list

/-- Embedded `create_table` from `ansi::parser::create_table`. -/
def create_table : P CreateTable :=
  pmap (fun ((scope, tn), src) => CreateTable.mk scope tn src)
    (ppair
      (ppair
        (preceded (tag_no_case "CREATE".toList) (popt (preceded multispace1 table_scope)))
        (preceded (delimitedP multispace1 (tag_no_case "TABLE".toList) multispace1)
          table_name))
      (delimitedP multispace1 table_contents_source statement_terminator))

/-- The `schema_name` of the older `ansi/parser.rs` in the snapshot:
`separated_list1(tag("."), ident)` and an explicit error for chains of
three or more identifiers. -/
def schema_name_legacy : P SchemaName := fun i =>
  match separated_list1 (tag ['.']) ident i with
  | none => none
  | some (r, idents) =>
    match idents with
    | [sn] => some (r, SchemaName.mk sn none)
    | [catalog, sn] => some (r, SchemaName.mk sn (some catalog))
    | _ => none

/-- Modelled from the spec: the top-level `Statement` sum
{CreateSchema, DropSchema, CreateTable, DropTable}. The snapshot's
`ansi.rs` and `ansi/parser.rs` predate the table statements (they only
wire in the schema statements and do not compile against the current
`common::parsers`), while the integration tests match on all four
variants; the missing current enum is reconstructed from the spec's
statement family. -/
inductive Statement : Type
  | CreateSchema : CreateSchema → Statement
  | DropSchema : DropSchema → Statement
  | DropTable : DropTable → Statement
  | CreateTable : CreateTable → Statement
deriving DecidableEq

/-- Modelled from the spec: `parse_statement` tries, in order,
CreateSchema, DropSchema, DropTable, CreateTable, returning the first
structural match or the aggregate error. The statement sub-parsers are
the ones from `ansi/parser/` above; only this dispatch is missing from
the snapshot (its tests call it as `ansi::parser::parse_statement`). -/
def parse_statement : P Statement :=
  palt (pmap Statement.CreateSchema create_schema)
    (palt (pmap Statement.DropSchema drop_schema)
      (palt (pmap Statement.DropTable drop_table)
        (pmap Statement.CreateTable create_table)))

/-- ASCII upper-casing of one character (default keyword casing). -/
def asciiUpper (c : Char) : Char :=
  if 97 ≤ c.toNat ∧ c.toNat ≤ 122 then Char.ofNat (c.toNat - 32) else c

/-- Collapse every maximal whitespace run to a single space. -/
def squeezeWs : List Char → List Char
  | [] => []
  | c :: cs =>
    if is_whitespace c then
      match cs with
      | [] => [' ']
      | d :: _ => if is_whitespace d then squeezeWs cs else ' ' :: squeezeWs cs
    else c :: squeezeWs cs

/-- Modelled from the spec: `normalize` only collapses whitespace runs
and fills default (upper-case) keyword casing. Stated from the spec's
words to compare the code's rendering against the claimed round-trip
contract. -/
def normalize (s : List Char) : List Char := (squeezeWs s).map asciiUpper

/-- C1 counterexample: the input `CHAR (20)` is accepted by `data_type`
(with nothing left over), but the canonical rendering of the parsed
value drops the space before the parenthesis, so it differs from the
whitespace-collapsed, upper-cased normalization of the input. -/
theorem c1_round_trip_counterexample :
    data_type ("CHAR (20)".toList)
      = some ([], DataType.Char (some ⟨20, none⟩)) ∧
    renderDataType (DataType.Char (some ⟨20, none⟩)) = "CHAR(20)".toList ∧
    normalize ("CHAR (20)".toList) = "CHAR (20)".toList ∧
    renderDataType (DataType.Char (some ⟨20, none⟩)) ≠ normalize ("CHAR (20)".toList) := by
  decide

/-- C1 (amended): for every input accepted by `data_type`, re-parsing the
canonical rendering of the parsed value reproduces that value exactly,
with no remainder — the rendering is a parse fixpoint (hence parsing is
idempotent across rendering); equality with `normalize(text)` does not
hold in general. -/
theorem c1_round_trip_amended (s r : List Char) (v : DataType)
    (h : data_type s = some (r, v)) :
    data_type (renderDataType v) = some ([], v) :=
  data_type_render_roundtrip v (data_type_wf h)

/-- Witness for the amended C1 theorem at the accepted input
`NUMERIC(20)`. -/
theorem c1_round_trip_amended_witness :
    data_type (renderDataType (DataType.Numeric (ExactNumberInfo.Precision 20)))
      = some ([], DataType.Numeric (ExactNumberInfo.Precision 20)) :=
  c1_round_trip_amended ("NUMERIC(20)".toList) []
    (DataType.Numeric (ExactNumberInfo.Precision 20)) (by decide)

/-- C2: `parse_statement` tries CreateSchema, DropSchema, DropTable,
CreateTable in that order and returns the first structural match, or an
aggregate error when none matches; in particular a well-formed
`DROP TABLE` and a well-formed `CREATE TABLE` statement are accepted. -/
theorem c2_parse_statement_dispatch :
    (∀ i : List Char,
      parse_statement i =
        match create_schema i with
        | some (r, c) => some (r, Statement.CreateSchema c)
        | none =>
          match drop_schema i with
          | some (r, d) => some (r, Statement.DropSchema d)
          | none =>
            match drop_table i with
            | some (r, d) => some (r, Statement.DropTable d)
            | none =>
              match create_table i with
              | some (r, c) => some (r, Statement.CreateTable c)
              | none => none) ∧
    parse_statement ("DROP TABLE table_name CASCADE".toList)
      = some ([], Statement.DropTable
          ⟨⟨Ident.new "table_name".toList, none⟩, DropBehavior.Cascade⟩) ∧
    parse_statement ("CREATE TABLE t (id INT)".toList)
      = some ([], Statement.CreateTable
          ⟨none, ⟨Ident.new "t".toList, none⟩,
            TableContentsSource.TableElementList
              ⟨[TableElement.ColumnDefinition
                ⟨Ident.new "id".toList, some DataType.Int⟩]⟩⟩) ∧
    parse_statement ("SELECT 1;".toList) = none := by
  refine ⟨?_, by decide, by decide, by decide⟩
  intro i
  unfold parse_statement
  cases h1 : create_schema i with
  | some rc =>
    obtain ⟨r, c⟩ := rc
    rw [palt_some (pmap_some h1)]
  | none =>
    rw [palt_none (pmap_none h1)]
    cases h2 : drop_schema i with
    | some rd =>
      obtain ⟨r, d⟩ := rd
      rw [palt_some (pmap_some h2)]
    | none =>
      rw [palt_none (pmap_none h2)]
      cases h3 : drop_table i with
      | some rd =>
        obtain ⟨r, d⟩ := rd
        rw [palt_some (pmap_some h3)]
      | none =>
        rw [palt_none (pmap_none h3)]
        cases h4 : create_table i with
        | some rc =>
          obtain ⟨r, c⟩ := rc
          rw [pmap_some h4]
        | none =>
          rw [pmap_none h4]

/-- C3: qualified table-name boundary — `schema_name.table_name` yields a
schema-qualified name, `catalog_name.schema_name.table_name` the
catalog-qualified form, `MODULE.table_name` the local qualifier; and
`schema_for_qualified_table_name` commits only when a non-consuming
lookahead has confirmed a further `.identifier`, so its remainder always
still starts with a period and a parsable identifier (the table name is
left over). -/
theorem c3_qualified_table_name_boundary :
    table_name ("schema_name.table_name".toList)
      = some ([], ⟨Ident.new "table_name".toList,
          some (LocalOrSchemaQualifier.Schema ⟨Ident.new "schema_name".toList, none⟩)⟩) ∧
    table_name ("catalog_name.schema_name.table_name".toList)
      = some ([], ⟨Ident.new "table_name".toList,
          some (LocalOrSchemaQualifier.Schema ⟨Ident.new "schema_name".toList,
            some (Ident.new "catalog_name".toList)⟩)⟩) ∧
    table_name ("MODULE.table_name".toList)
      = some ([], ⟨Ident.new "table_name".toList,
          some (LocalOrSchemaQualifier.LocalQualifier LocalQualifier.Module)⟩) ∧
    (∀ (i r : List Char) (sn : SchemaName),
      schema_for_qualified_table_name i = some (r, sn) →
      ∃ z, ppair period ident r = some z) := by
  refine ⟨by decide, by decide, by decide, ?_⟩
  intro i r sn h
  unfold schema_for_qualified_table_name at h
  rcases palt_inv h with h1 | h1
  · obtain ⟨a, ha, _⟩ := pmap_inv h1
    unfold terminated at ha
    split at ha
    · exact absurd ha (by simp)
    · rename_i r1 a1 heq
      split at ha
      · exact absurd ha (by simp)
      · rename_i r2 b heq2
        simp only [Option.some.injEq, Prod.mk.injEq] at ha
        unfold ppeek at heq2
        split at heq2
        · exact absurd heq2 (by simp)
        · rename_i r3 b3 heq3
          simp only [Option.some.injEq, Prod.mk.injEq] at heq2
          refine ⟨(r3, b3), ?_⟩
          rw [← ha.1, ← heq2.1]
          exact heq3
  · obtain ⟨a, ha, _⟩ := pmap_inv h1
    unfold terminated at ha
    split at ha
    · exact absurd ha (by simp)
    · rename_i r1 a1 heq
      split at ha
      · exact absurd ha (by simp)
      · rename_i r2 b heq2
        simp only [Option.some.injEq, Prod.mk.injEq] at ha
        unfold ppeek at heq2
        split at heq2
        · exact absurd heq2 (by simp)
        · rename_i r3 b3 heq3
          simp only [Option.some.injEq, Prod.mk.injEq] at heq2
          refine ⟨(r3, b3), ?_⟩
          rw [← ha.1, ← heq2.1]
          exact heq3

/-- Witness for the lookahead part of C3 at the concrete input
`schema_name.table_name`: the committed remainder `.table_name` indeed
still parses as a period and an identifier. -/
theorem c3_qualified_table_name_boundary_witness :
    ∃ z, ppair period ident (".table_name".toList) = some z :=
  c3_qualified_table_name_boundary.2.2.2 ("schema_name.table_name".toList)
    (".table_name".toList) ⟨Ident.new "schema_name".toList, none⟩ (by decide)

/-- C4: the `ident` parser does not skip leading whitespace, contrary to
its own doc comment and the spec — it fails on a space followed by a
valid identifier, while accepting unquoted and double-quoted identifiers
with no leading whitespace and rejecting digit-led input. -/
theorem c4_ident_whitespace_divergence :
    ident (" a".toList) = none ∧
    ident ("a".toList) = some ([], Ident.new "a".toList) ∧
    ident ("abc def".toList) = some (" def".toList, Ident.new "abc".toList) ∧
    ident ([Char.ofNat 34] ++ "q1".toList ++ [Char.ofNat 34])
      = some ([], Ident.new_quoted "q1".toList QuoteStyle.DoubleQuote) ∧
    ident ("1abc".toList) = none := by
  decide

/-- Shape of a word the unquoted branch of `ident` accepts as a whole
identifier: nonempty, leading ASCII letter, every character in the
`is_sql_identifier` class. -/
def validIdent (w : List Char) : Bool :=
  match w with
  | [] => false
  | c :: _ => c.isAlpha && w.all is_sql_identifier

/-- Input text of a nonempty chain of words separated by single dots. -/
def dotChain : List (List Char) → List Char
  | [] => []
  | [w] => w
  | w :: ws => w ++ '.' :: dotChain ws

theorem ident_word_eval (w rest : List Char) (hw : validIdent w = true)
    (hrest : headNot is_sql_identifier rest) :
    ident (w ++ rest) = some (rest, Ident.new w) := by
  cases w with
  | nil => simp [validIdent] at hw
  | cons c w' =>
    simp only [validIdent, Bool.and_eq_true, List.all_eq_true] at hw
    obtain ⟨hc, hall⟩ := hw
    have hcq : c ≠ '"' := by
      intro hcc
      rw [hcc] at hc
      exact absurd hc (by decide)
    have hbeq : ('"' == c) = false := by
      cases h34 : ('"' == c) with
      | false => rfl
      | true => exact absurd (eq_of_beq h34).symm hcq
    have hdq : tag ['"'] ((c :: w') ++ rest) = none := by
      simp [tag, List.isPrefixOf, hbeq]
    have hdel : delimitedP (tag ['"']) (take_while1 is_sql_identifier)
        (tag ['"']) ((c :: w') ++ rest) = none := by
      unfold delimitedP
      exact preceded_none hdq
    have hpeek : ∃ z, ppeek alpha1 ((c :: w') ++ rest) = some z := by
      have hne : ((c :: w') ++ rest).takeWhile (fun ch => ch.isAlpha) ≠ [] := by
        rw [List.cons_append]
        simp [List.takeWhile_cons, hc]
      unfold ppeek alpha1 take_while1
      cases htwa : ((c :: w') ++ rest).takeWhile (fun ch => ch.isAlpha) with
      | nil => exact absurd htwa hne
      | cons d t => exact ⟨_, rfl⟩
    have htw : take_while1 is_sql_identifier ((c :: w') ++ rest)
        = some (rest, c :: w') := by
      unfold take_while1
      rw [takeWhile_append_frontAll (c :: w') rest hall hrest]
      simp [drop_length_append]
    have hunq : ident_unquoted ((c :: w') ++ rest)
        = some (rest, Ident.new (c :: w')) := by
      obtain ⟨z, hz⟩ := hpeek
      unfold ident_unquoted
      rw [hz]
      exact pmap_some htw
    unfold ident
    rw [palt_none (pmap_none hdel)]
    exact hunq

theorem schema_name_single_eval (w : List Char) (hw : validIdent w = true) :
    schema_name w = some ([], SchemaName.mk (Ident.new w) none) := by
  have hi : ident w = some ([], Ident.new w) := by
    have h := ident_word_eval w [] hw trivial
    simpa using h
  have hterm : terminated ident period w = none := by
    rw [terminated_step hi]
    simp [period, tag, List.isPrefixOf]
  unfold schema_name
  rw [palt_none (pmap_none (ppair_none hterm))]
  exact pmap_some hi

theorem schema_name_qualified_eval (w1 w2 rest : List Char)
    (h1 : validIdent w1 = true) (h2 : validIdent w2 = true)
    (hrest : headNot is_sql_identifier rest) :
    schema_name (w1 ++ ('.' :: (w2 ++ rest)))
      = some (rest, SchemaName.mk (Ident.new w2) (some (Ident.new w1))) := by
  have hi1 : ident (w1 ++ ('.' :: (w2 ++ rest)))
      = some ('.' :: (w2 ++ rest), Ident.new w1) :=
    ident_word_eval w1 ('.' :: (w2 ++ rest)) h1 (by exact rfl)
  have hterm : terminated ident period (w1 ++ ('.' :: (w2 ++ rest)))
      = some (w2 ++ rest, Ident.new w1) := by
    rw [terminated_step hi1]
    simp [period, tag, List.isPrefixOf]
  have hi2 : ident (w2 ++ rest) = some (rest, Ident.new w2) :=
    ident_word_eval w2 rest h2 hrest
  have hpair : ppair (terminated ident period) ident (w1 ++ ('.' :: (w2 ++ rest)))
      = some (rest, (Ident.new w1, Ident.new w2)) := by
    rw [ppair_step hterm, hi2]
    rfl
  unfold schema_name
  exact palt_some (pmap_some hpair)

/-- C5 counterexample: on the three-identifier chain `a.b.c` the current
`schema_name` of `ansi::parser::common` does not return a parse error —
it succeeds, consuming only `a.b` and leaving `.c` unconsumed. -/
theorem c5_schema_name_counterexample :
    schema_name ("a.b.c".toList)
      = some (".c".toList, ⟨Ident.new "b".toList, some (Ident.new "a".toList)⟩) ∧
    schema_name ("a.b.c".toList) ≠ none := by
  decide

/-- C5 (amended): for every single identifier word `schema_name` returns
the unqualified name, and for every two dot-separated identifier words
the catalog-qualified name; for every chain of three or more
dot-separated identifier words it does not itself return a parse error —
it succeeds, consuming exactly the first two words as `catalog.schema`
and leaving the rest of the chain, starting at the following dot,
unconsumed, so the overlong chain is only rejected by the enclosing
statement rule (a grammar error at the call site, as `drop_schema`
shows); the older list-based `schema_name` still present in the
snapshot's `ansi/parser.rs` returns the error itself on such a chain. -/
theorem c5_schema_name_amended :
    (∀ w : List Char, validIdent w = true →
      schema_name w = some ([], ⟨Ident.new w, none⟩)) ∧
    (∀ w1 w2 : List Char, validIdent w1 = true → validIdent w2 = true →
      schema_name (w1 ++ ('.' :: w2))
        = some ([], ⟨Ident.new w2, some (Ident.new w1)⟩)) ∧
    (∀ (w1 w2 w3 : List Char) (ws : List (List Char)),
      validIdent w1 = true → validIdent w2 = true → validIdent w3 = true →
      (∀ w ∈ ws, validIdent w = true) →
      schema_name (dotChain (w1 :: w2 :: w3 :: ws))
        = some ('.' :: dotChain (w3 :: ws),
            ⟨Ident.new w2, some (Ident.new w1)⟩)) ∧
    drop_schema ("DROP SCHEMA a.b.c RESTRICT;".toList) = none ∧
    schema_name_legacy ("a.b.c".toList) = none := by
  refine ⟨?_, ?_, ?_, by decide, by decide⟩
  · intro w hw
    exact schema_name_single_eval w hw
  · intro w1 w2 h1 h2
    have h := schema_name_qualified_eval w1 w2 [] h1 h2 trivial
    simpa using h
  · intro w1 w2 w3 ws h1 h2 h3 _hws
    have hshape : dotChain (w1 :: w2 :: w3 :: ws)
        = w1 ++ ('.' :: (w2 ++ ('.' :: dotChain (w3 :: ws)))) := by
      simp [dotChain]
    rw [hshape]
    exact schema_name_qualified_eval w1 w2 ('.' :: dotChain (w3 :: ws)) h1 h2
      (by exact rfl)

/-- Witness for C5 (amended) at the concrete three-identifier chain
`a.b.c`: the identifier-word hypotheses hold and `schema_name` consumes
only `a.b`, leaving `.c`. -/
theorem c5_schema_name_amended_witness :
    validIdent "a".toList = true ∧
    schema_name (dotChain ["a".toList, "b".toList, "c".toList])
      = some ('.' :: dotChain ["c".toList],
          ⟨Ident.new "b".toList, some (Ident.new "a".toList)⟩) :=
  ⟨by decide, c5_schema_name_amended.2.2.1 "a".toList "b".toList "c".toList []
    (by decide) (by decide) (by decide) (by simp)⟩

/-- C6: keyword-prefix disambiguation — `CHAR`, `CHAR VARYING` and
`CHAR LARGE OBJECT` each resolve to their own variant, never to a
shorter-prefix rule, and likewise `DEC`, `DECIMAL` and `DECFLOAT`. -/
theorem c6_keyword_prefix_disambiguation :
    data_type ("CHAR".toList) = some ([], DataType.Char none) ∧
    data_type ("CHAR VARYING".toList) = some ([], DataType.CharVarying none) ∧
    data_type ("CHAR LARGE OBJECT".toList)
      = some ([], DataType.CharLargeObject none) ∧
    data_type ("DEC".toList) = some ([], DataType.Dec ExactNumberInfo.None) ∧
    data_type ("DECIMAL".toList) = some ([], DataType.Decimal ExactNumberInfo.None) ∧
    data_type ("DECFLOAT".toList) = some ([], DataType.DecFloat none) := by
  decide

/-- C7: the three exact-numeric precision states are kept apart —
absence, precision, and precision plus scale each produce their own
`ExactNumberInfo` constructor, for NUMERIC, DECIMAL and DEC alike. -/
theorem c7_exact_numeric_precision_states :
    data_type ("NUMERIC".toList) = some ([], DataType.Numeric ExactNumberInfo.None) ∧
    data_type ("NUMERIC(20)".toList)
      = some ([], DataType.Numeric (ExactNumberInfo.Precision 20)) ∧
    data_type ("NUMERIC(30, 2)".toList)
      = some ([], DataType.Numeric (ExactNumberInfo.PrecisionAndScale 30 2)) ∧
    data_type ("DECIMAL".toList) = some ([], DataType.Decimal ExactNumberInfo.None) ∧
    data_type ("DECIMAL(20)".toList)
      = some ([], DataType.Decimal (ExactNumberInfo.Precision 20)) ∧
    data_type ("DECIMAL(30, 2)".toList)
      = some ([], DataType.Decimal (ExactNumberInfo.PrecisionAndScale 30 2)) ∧
    data_type ("DEC".toList) = some ([], DataType.Dec ExactNumberInfo.None) ∧
    data_type ("DEC(20)".toList) = some ([], DataType.Dec (ExactNumberInfo.Precision 20)) ∧
    data_type ("DEC(30, 2)".toList)
      = some ([], DataType.Dec (ExactNumberInfo.PrecisionAndScale 30 2)) := by
  decide

/-- C9: the parsing routines are total functions into `Option` — on
every input they return an `Ok` (`some`) or a recoverable `Err`
(`none`); a malformed statement such as `CREATE TABLE (id INT)` is an
error, not a panic. -/
theorem c9_total_no_panic :
    parse_statement ("CREATE TABLE (id INT)".toList) = none ∧
    create_table ("CREATE TABLE (id INT)".toList) = none ∧
    (∀ i : List Char, parse_statement i = none ∨ ∃ o, parse_statement i = some o) ∧
    (∀ i : List Char, create_table i = none ∨ ∃ o, create_table i = some o) ∧
    (∀ i : List Char, ident i = none ∨ ∃ o, ident i = some o) ∧
    (∀ i : List Char, data_type i = none ∨ ∃ o, data_type i = some o) := by
  refine ⟨by decide, by decide, ?_, ?_, ?_, ?_⟩ <;>
    intro i <;>
    first
      | cases h : parse_statement i with
        | none => exact Or.inl rfl
        | some o => exact Or.inr ⟨o, rfl⟩
      | cases h : create_table i with
        | none => exact Or.inl rfl
        | some o => exact Or.inr ⟨o, rfl⟩
      | cases h : ident i with
        | none => exact Or.inl rfl
        | some o => exact Or.inr ⟨o, rfl⟩
      | cases h : data_type i with
        | none => exact Or.inl rfl
        | some o => exact Or.inr ⟨o, rfl⟩

/-- C10: `exact_number_info` and `with_or_without_timezone` always
succeed, falling back to their `None` variants via the empty-string
alternative; consequently `NUMERIC(20` (unclosed parenthesis) parses as
bare `NUMERIC` with the malformed suffix left as remainder. -/
theorem c10_fallback_totality :
    (∀ i : List Char, ∃ r e, exact_number_info i = some (r, e)) ∧
    (∀ i : List Char, ∃ r t, with_or_without_timezone i = some (r, t)) ∧
    data_type ("NUMERIC(20".toList)
      = some ("(20".toList, DataType.Numeric ExactNumberInfo.None) := by
  refine ⟨?_, ?_, by decide⟩
  · intro i
    unfold exact_number_info
    cases h1 : pmap
        (fun (x : Nat × Nat) => ExactNumberInfo.PrecisionAndScale x.1 x.2)
        (paren_delimited (separated_pair u32 (delimited_ws0 comma) u32)) i with
    | some o =>
      exact ⟨o.1, o.2, by rw [palt_some (show _ = some (o.1, o.2) from h1)]⟩
    | none =>
      rw [palt_none h1]
      cases h2 : pmap ExactNumberInfo.Precision (paren_delimited u32) i with
      | some o =>
        exact ⟨o.1, o.2, by rw [palt_some (show _ = some (o.1, o.2) from h2)]⟩
      | none =>
        rw [palt_none h2]
        exact ⟨i, ExactNumberInfo.None, by simp [pmap, tag, List.isPrefixOf]⟩
  · intro i
    unfold with_or_without_timezone
    cases h1 : pmap (fun _ => WithOrWithoutTimeZone.WithoutTimeZone)
        (preceded_ws1 (tag_no_case "WITHOUT TIME ZONE".toList)) i with
    | some o =>
      exact ⟨o.1, o.2, by rw [palt_some (show _ = some (o.1, o.2) from h1)]⟩
    | none =>
      rw [palt_none h1]
      cases h2 : pmap (fun _ => WithOrWithoutTimeZone.WithTimeZone)
          (preceded_ws1 (tag_no_case "WITH TIME ZONE".toList)) i with
      | some o =>
        exact ⟨o.1, o.2, by rw [palt_some (show _ = some (o.1, o.2) from h2)]⟩
      | none =>
        rw [palt_none h2]
        exact ⟨i, WithOrWithoutTimeZone.None, by simp [pmap, tag, List.isPrefixOf]⟩

/-- The table element parsed from the text `id INT`. -/
def elemIdInt : TableElement :=
  TableElement.ColumnDefinition ⟨Ident.new "id".toList, some DataType.Int⟩

/-- Additional `, id INT` column clauses, `n` of them. -/
def moreCols : Nat → List Char
  | 0 => []
  | n + 1 => ',' :: ' ' :: 'i' :: 'd' :: ' ' :: 'I' :: 'N' :: 'T' :: moreCols n

theorem moreCols_length (n : Nat) : (moreCols n).length = 8 * n := by
  induction n with
  | zero => rfl
  | succ n ih => simp [moreCols, ih]; omega

theorem table_element_id_int_comma (Y : List Char) :
    table_element ('i' :: 'd' :: ' ' :: 'I' :: 'N' :: 'T' :: (',' :: Y))
      = some (',' :: Y, elemIdInt) := rfl

theorem table_element_id_int_rparen (Y : List Char) :
    table_element ('i' :: 'd' :: ' ' :: 'I' :: 'N' :: 'T' :: (')' :: Y))
      = some (')' :: Y, elemIdInt) := rfl

theorem colSep_comma (Y : List Char) :
    delimitedP multispace0 comma multispace0 (',' :: ' ' :: 'i' :: Y)
      = some ('i' :: Y, [',']) := rfl

theorem colSep_rparen (Y : List Char) :
    delimitedP multispace0 comma multispace0 (')' :: Y) = none := rfl

theorem separated_list1_start {α β : Type} {sep : P β} {p : P α}
    {i i1 : List Char} {a : α} (hp : p i = some (i1, a)) :
    separated_list1 sep p i = separated_list1Aux sep p (i1.length + 1) i1 [a] := by
  simp only [separated_list1, hp]

theorem separated_list1Aux_last {α β : Type} {sep : P β} {p : P α} {f : Nat}
    {i : List Char} {acc : List α} (hsep : sep i = none) :
    separated_list1Aux sep p (f + 1) i acc = some (i, acc.reverse) := by
  simp only [separated_list1Aux, hsep]

theorem separated_list1Aux_step {α β : Type} {sep : P β} {p : P α} {f : Nat}
    {i i1 i2 : List Char} {b : β} {a : α} {acc : List α}
    (hsep : sep i = some (i1, b)) (hne : i1 ≠ i) (hp : p i1 = some (i2, a)) :
    separated_list1Aux sep p (f + 1) i acc = separated_list1Aux sep p f i2 (a :: acc) := by
  simp only [separated_list1Aux, hsep, hp, if_neg hne]

theorem cols_loop (n : Nat) : ∀ (acc : List TableElement) (f : Nat), n ≤ f →
    separated_list1Aux (delimitedP multispace0 comma multispace0) table_element (f + 1)
      (moreCols n ++ [')']) acc
      = some ([')'], acc.reverse ++ List.replicate n elemIdInt) := by
  induction n with
  | zero =>
    intro acc f _
    simp only [moreCols, List.nil_append]
    rw [separated_list1Aux_last (colSep_rparen [])]
    simp
  | succ n ih =>
    intro acc f hf
    cases f with
    | zero => omega
    | succ f2 =>
      simp only [moreCols, List.cons_append]
      cases n with
      | zero =>
        simp only [moreCols, List.nil_append]
        rw [separated_list1Aux_step (colSep_comma _) (by simp)
          (table_element_id_int_rparen _)]
        have hloop := ih (elemIdInt :: acc) f2 (by omega)
        simp only [moreCols, List.nil_append] at hloop
        rw [hloop]
        simp [List.replicate_succ]
      | succ m =>
        simp only [moreCols, List.cons_append]
        rw [separated_list1Aux_step (colSep_comma _) (by simp)
          (table_element_id_int_comma _)]
        have hloop := ih (elemIdInt :: acc) f2 (by omega)
        simp only [moreCols, List.cons_append] at hloop
        rw [hloop]
        simp [List.replicate_succ]

theorem cols_top (n : Nat) :
    separated_list1 (delimitedP multispace0 comma multispace0) table_element
      ('i' :: 'd' :: ' ' :: 'I' :: 'N' :: 'T' :: (moreCols n ++ [')']))
      = some ([')'], List.replicate (n + 1) elemIdInt) := by
  cases n with
  | zero =>
    simp only [moreCols, List.nil_append]
    rw [separated_list1_start (table_element_id_int_rparen [])]
    rw [separated_list1Aux_last (colSep_rparen [])]
    simp
  | succ m =>
    simp only [moreCols, List.cons_append]
    rw [separated_list1_start (table_element_id_int_comma _)]
    have hlen : (',' :: ' ' :: 'i' :: 'd' :: ' ' :: 'I' :: 'N' :: 'T'
        :: (moreCols m ++ [')']) : List Char).length = 8 * m + 9 := by
      simp [moreCols_length]
    rw [hlen]
    have hloop := cols_loop (m + 1) [elemIdInt] (8 * m + 9) (by omega)
    simp only [moreCols, List.cons_append] at hloop
    rw [show (8 * m + 9) + 1 = (8 * m + 9) + 1 from rfl, hloop]
    simp [List.replicate_succ]

/-- Acceptance of `CREATE TABLE t ( ... )` whose body parses as a
nonempty element list followed by the closing parenthesis. -/
theorem create_table_body (R : List Char) (els : List TableElement)
    (hms : multispace0 R = some (R, []))
    (hsep : separated_list1 (delimitedP multispace0 comma multispace0) table_element R
      = some ([')'], els)) :
    create_table ("CREATE TABLE t (".toList ++ R)
      = some ([], CreateTable.mk none ⟨Ident.new "t".toList, none⟩
          (TableContentsSource.TableElementList ⟨els⟩)) := by
  have hA : preceded (tag_no_case "CREATE".toList)
      (popt (preceded multispace1 table_scope)) ("CREATE TABLE t (".toList ++ R)
      = some (' ' :: 'T' :: 'A' :: 'B' :: 'L' :: 'E' :: ' ' :: 't' :: ' ' :: '(' :: R,
          (none : Option TableScope)) := rfl
  have hB : preceded (delimitedP multispace1 (tag_no_case "TABLE".toList) multispace1)
      table_name (' ' :: 'T' :: 'A' :: 'B' :: 'L' :: 'E' :: ' ' :: 't' :: ' ' :: '(' :: R)
      = some (' ' :: '(' :: R, TableName.mk (Ident.new "t".toList) none) := rfl
  have hAB : ppair
      (preceded (tag_no_case "CREATE".toList) (popt (preceded multispace1 table_scope)))
      (preceded (delimitedP multispace1 (tag_no_case "TABLE".toList) multispace1) table_name)
      ("CREATE TABLE t (".toList ++ R)
      = some (' ' :: '(' :: R,
          ((none : Option TableScope), TableName.mk (Ident.new "t".toList) none)) := by
    rw [ppair_step hA, hB]
    rfl
  have h1 : terminated left_paren multispace0 ('(' :: R) = some (R, ['(']) := by
    rw [terminated_step (left_paren_eval R), hms]
    rfl
  have h2 : delimitedP (terminated left_paren multispace0)
      (separated_list1 (delimitedP multispace0 comma multispace0) table_element)
      (preceded multispace0 right_paren) ('(' :: R)
      = some ([], els) := by
    rw [show delimitedP (terminated left_paren multispace0)
        (separated_list1 (delimitedP multispace0 comma multispace0) table_element)
        (preceded multispace0 right_paren) ('(' :: R)
      = preceded (terminated left_paren multispace0)
          (terminated
            (separated_list1 (delimitedP multispace0 comma multispace0) table_element)
            (preceded multispace0 right_paren)) ('(' :: R) from rfl]
    rw [preceded_step h1, terminated_step hsep]
    rfl
  have htcs : table_contents_source ('(' :: R)
      = some ([], TableContentsSource.TableElementList ⟨els⟩) :=
    pmap_some (pmap_some h2)
  have hC : delimitedP multispace1 table_contents_source statement_terminator
      (' ' :: '(' :: R)
      = some ([], TableContentsSource.TableElementList ⟨els⟩) := by
    unfold delimitedP
    rw [preceded_step (show multispace1 (' ' :: '(' :: R) = some ('(' :: R, [' ']) from rfl),
      terminated_step htcs]
    rfl
  unfold create_table
  rw [pmap_step, ppair_step hAB, hC]
  rfl

/-- C8: `CREATE TABLE` requires a nonempty element list — empty
parentheses are rejected (by `create_table` and hence by the dispatcher),
while for every `n` a list of `n + 1` comma-separated column definitions
is accepted. -/
theorem c8_create_table_nonempty_elements :
    create_table ("CREATE TABLE t ()".toList) = none ∧
    parse_statement ("CREATE TABLE t ()".toList) = none ∧
    (∀ n : Nat,
      create_table ("CREATE TABLE t (".toList ++
          ('i' :: 'd' :: ' ' :: 'I' :: 'N' :: 'T' :: (moreCols n ++ [')'])))
        = some ([], CreateTable.mk none ⟨Ident.new "t".toList, none⟩
            (TableContentsSource.TableElementList
              ⟨List.replicate (n + 1) elemIdInt⟩))) := by
  refine ⟨by decide, by decide, ?_⟩
  intro n
  exact create_table_body _ _ rfl (cols_top n)

end SqlHelper
